import Mathlib

/-!
Verification development for the DreamSpiral constrained-expansion engine
(`src/dreamspiral/`): the Pathogen Scanner (`drift_detector.py`), the
Constraint Genome Extractor and Guard Chain (`recursive_expander.py`), and
the budgeted Recursive Growth Pass (`recursive_growth_pass.py`).

Modelling conventions:
* Python floats are modelled by `Rat`; every constant appearing in the code
  is an exact decimal, so the arithmetic facts proved here (bounds,
  comparisons against thresholds) are the same facts that hold of the float
  program on these small values.
* The Python `re` regex engine is an external library; calls to it are
  modelled by oracle parameters (`count`, `findall`, ...) giving, for each
  pattern string and input text, the match count / match list.  The simple
  regexes `\b[A-Z][a-z]+\b` (capitalised-word extraction) and the literal
  whole-word alternations are implemented concretely.
* `datetime.now()` and the external RIC arbiter / candidate generator are
  side-effecting collaborators; they are modelled as explicit parameters.
-/

set_option maxRecDepth 4000

/-! ## Pathogen scanner (`drift_detector.py`) -/

/-- `PathogenType` enum: the eight named narrative-drift pathogens. -/
inductive PathogenType where
  | ancestral_drift
  | sentimentality_bloom
  | hallucinated_precision
  | thematic_mutation
  | time_jump_parasite
  | scope_creep
  | character_contamination
  | tonal_infection
deriving DecidableEq

/-- `.value` of the Python enum member. -/
def PathogenType.value : PathogenType → String
  | .ancestral_drift => "ancestral_drift"
  | .sentimentality_bloom => "sentimentality_bloom"
  | .hallucinated_precision => "hallucinated_precision"
  | .thematic_mutation => "thematic_mutation"
  | .time_jump_parasite => "time_jump_parasite"
  | .scope_creep => "scope_creep"
  | .character_contamination => "character_contamination"
  | .tonal_infection => "tonal_infection"

/-- `PathogenSeverity` enum. -/
inductive PathogenSeverity where
  | low
  | medium
  | high
  | critical
deriving DecidableEq

/-- `PathogenFingerprint` dataclass (match positions and timestamps are
outside the counting oracle and are not represented). -/
structure PathogenFingerprint where
  pathogen_type : PathogenType
  name : String
  description : String
  detection_patterns : List String
  semantic_markers : List String
  severity_weights : List (String × Rat)
  threshold : Rat
  mutation_rate : Rat

/-- `self.severity_weights.get(pattern, 1.0)`. -/
def weightLookup (ws : List (String × Rat)) (p : String) : Rat :=
  match ws.find? (fun e => e.1 == p) with
  | some e => e.2
  | none => 1

/-- `PathogenFingerprint.calculate_severity`: weighted score of the match
dictionary, compared against 1x / 2x / 3x the threshold. -/
def PathogenFingerprint.calculate_severity (f : PathogenFingerprint)
    (mtchs : List (String × Nat)) : PathogenSeverity :=
  let score : Rat :=
    mtchs.foldl (fun s m => s + (m.2 : Rat) * weightLookup f.severity_weights m.1) 0
  if score ≥ f.threshold * 3 then .critical
  else if score ≥ f.threshold * 2 then .high
  else if score ≥ f.threshold then .medium
  else .low

/-- `DriftDetector._initialize_pathogen_library`: the library built by the
source constructor.  It contains six fingerprints; the enum members
`character_contamination` and `tonal_infection` are never given one. -/
def pathogenLibrary : List PathogenFingerprint := [
  { pathogen_type := .ancestral_drift
    name := "Ancestral Drift"
    description := "Unintended introduction of character backstory or historical details"
    detection_patterns := [
      "years? ago",
      "when (?:he|she|they) was (?:young|younger|a child)",
      "(?:mother|father|parent)(?:s)? (?:always|used to|would)",
      "remember(?:ed|ing)? when",
      "(?:childhood|youth|past) (?:memories?|experiences?)",
      "(?:grandmother|grandfather) (?:told|said|taught)",
      "family tradition",
      "inherited from",
      "(?:born|raised) in",
      "(?:learned|discovered) as a (?:child|youth)"]
    semantic_markers := [
      "backstory", "history", "past", "childhood", "ancestry",
      "heritage", "legacy", "tradition", "memory", "origin"]
    severity_weights := [
      ("years? ago", 2),
      ("when (?:he|she|they) was (?:young|younger|a child)", 3),
      ("(?:grandmother|grandfather) (?:told|said|taught)", 25/10),
      ("family tradition", 35/10),
      ("inherited from", 3)]
    threshold := 2
    mutation_rate := 1/10 },
  { pathogen_type := .sentimentality_bloom
    name := "Sentimentality Bloom"
    description := "Excessive emotional elaboration that overwhelms narrative purpose"
    detection_patterns := [
      "(?:deeply|profoundly|overwhelmingly) (?:moved|touched|affected)",
      "tears? (?:streaming|flowing|cascading)",
      "heart (?:breaking|shattering|aching|swelling)",
      "(?:beautiful|precious|sacred) (?:moment|memory|feeling)",
      "(?:pure|innocent|perfect) (?:love|joy|happiness)",
      "(?:magical|enchanting|mystical) (?:connection|bond)",
      "soul(?:-?deep|(?:\\s+)touching)",
      "(?:trembling|quivering) with (?:emotion|feeling)",
      "(?:overwhelmed|consumed) by (?:love|grief|joy)",
      "(?:divine|spiritual|transcendent) (?:moment|experience)"]
    semantic_markers := [
      "emotional", "sentimental", "touching", "heartwarming",
      "precious", "sacred", "pure", "innocent", "magical"]
    severity_weights := [
      ("(?:deeply|profoundly|overwhelmingly) (?:moved|touched|affected)", 25/10),
      ("heart (?:breaking|shattering|aching|swelling)", 3),
      ("(?:pure|innocent|perfect) (?:love|joy|happiness)", 35/10),
      ("soul(?:-?deep|(?:\\s+)touching)", 4),
      ("(?:divine|spiritual|transcendent) (?:moment|experience)", 45/10)]
    threshold := 3
    mutation_rate := 15/100 },
  { pathogen_type := .hallucinated_precision
    name := "Hallucinated Precision"
    description := "Introduction of overly specific details not grounded in source material"
    detection_patterns := [
      "\\d+\\.?\\d*\\s*(?:inches?|feet|yards?|miles?|meters?|cm|mm)",
      "(?:exactly|precisely) \\d+",
      "\\d+:\\d+\\s*(?:AM|PM|am|pm)",
      "(?:Model|Type|Brand)\\s+[A-Z]\\d+",
      "\\$\\d+\\.?\\d*",
      "(?:License|Serial|ID)\\s*(?:Number|#)?\\s*[A-Z0-9]+",
      "(?:born|died|happened) (?:on|in) (?:January|February|March|April|May|June|July|August|September|October|November|December)\\s+\\d+",
      "(?:weighed|measured|cost|lasted) (?:exactly|precisely)",
      "(?:\\d+\\s*(?:degrees?|°))",
      "(?:ISBN|SSN|Phone)\\s*:?\\s*\\d+"]
    semantic_markers := [
      "exactly", "precisely", "specifically", "measured",
      "calculated", "documented", "recorded", "verified"]
    severity_weights := [
      ("(?:exactly|precisely) \\d+", 3),
      ("(?:Model|Type|Brand)\\s+[A-Z]\\d+", 4),
      ("(?:License|Serial|ID)\\s*(?:Number|#)?\\s*[A-Z0-9]+", 45/10),
      ("(?:born|died|happened) (?:on|in) (?:January|February|March|April|May|June|July|August|September|October|November|December)\\s+\\d+", 35/10)]
    threshold := 25/10
    mutation_rate := 2/10 },
  { pathogen_type := .thematic_mutation
    name := "Thematic Mutation"
    description := "Divergence from established thematic direction"
    detection_patterns := [
      "(?:suddenly|unexpectedly|out of nowhere)",
      "(?:completely|totally|entirely) different",
      "(?:unrelated|disconnected|separate) (?:topic|subject|matter)",
      "(?:shifted|changed|turned) (?:focus|attention|direction)",
      "(?:meanwhile|elsewhere|somewhere else)",
      "(?:another|different|separate) (?:story|narrative|plot)",
      "(?:tangent|digression|aside)",
      "(?:unconnected|isolated) (?:incident|event|occurrence)",
      "(?:random|arbitrary|chance) (?:event|occurrence|happening)",
      "(?:irrelevant|unimportant|peripheral) (?:detail|information)"]
    semantic_markers := [
      "divergent", "unrelated", "tangential", "disconnected",
      "separate", "different", "unconnected", "random", "arbitrary"]
    severity_weights := [
      ("(?:suddenly|unexpectedly|out of nowhere)", 2),
      ("(?:completely|totally|entirely) different", 35/10),
      ("(?:unrelated|disconnected|separate) (?:topic|subject|matter)", 4),
      ("(?:another|different|separate) (?:story|narrative|plot)", 45/10)]
    threshold := 25/10
    mutation_rate := 12/100 },
  { pathogen_type := .time_jump_parasite
    name := "Time-Jump Parasite"
    description := "Temporal inconsistencies and unexpected time shifts"
    detection_patterns := [
      "(?:later|earlier|before|after),?\\s*(?:that same day|that evening|that morning)",
      "(?:minutes?|hours?|days?|weeks?|months?|years?) (?:later|earlier|ago|before)",
      "(?:suddenly|instantly|immediately),?\\s*(?:time|everything) (?:shifted|changed|jumped)",
      "(?:flashback|flash forward|time skip)",
      "(?:when|while|as) (?:time|clock) (?:moved|passed|went)",
      "(?:past|present|future) (?:tense|time|moment)",
      "(?:chronology|timeline|sequence) (?:shifted|changed|broke)",
      "(?:temporal|time) (?:shift|jump|break|loop)",
      "(?:anachronism|time paradox)",
      "(?:now|then),?\\s*(?:back|forward) (?:in time|to)"]
    semantic_markers := [
      "temporal", "chronological", "timeline", "sequence",
      "flashback", "future", "past", "time", "when", "anachronism"]
    severity_weights := [
      ("(?:flashback|flash forward|time skip)", 35/10),
      ("(?:temporal|time) (?:shift|jump|break|loop)", 4),
      ("(?:anachronism|time paradox)", 45/10),
      ("(?:chronology|timeline|sequence) (?:shifted|changed|broke)", 4)]
    threshold := 2
    mutation_rate := 8/100 },
  { pathogen_type := .scope_creep
    name := "Scope Creep"
    description := "Expansion beyond established narrative boundaries"
    detection_patterns := [
      "(?:entire|whole|complete) (?:world|universe|reality)",
      "(?:global|worldwide|universal) (?:impact|effect|consequence)",
      "(?:government|authorities|officials) (?:involved|concerned|interested)",
      "(?:news|media|press) (?:coverage|attention|reports)",
      "(?:scientific|medical|legal) (?:community|establishment|experts)",
      "(?:international|national) (?:implications|consequences|ramifications)",
      "(?:cosmic|galactic|planetary) (?:significance|importance|scale)",
      "(?:historical|epoch|era)(?:-(?:making|defining|changing))?",
      "(?:all of humanity|human race|mankind|civilization)",
      "(?:paradigm|worldview) (?:shift|change|transformation)"]
    semantic_markers := [
      "global", "universal", "cosmic", "historical", "paradigm",
      "civilization", "humanity", "worldwide", "epoch", "era"]
    severity_weights := [
      ("(?:entire|whole|complete) (?:world|universe|reality)", 4),
      ("(?:cosmic|galactic|planetary) (?:significance|importance|scale)", 45/10),
      ("(?:all of humanity|human race|mankind|civilization)", 4),
      ("(?:paradigm|worldview) (?:shift|change|transformation)", 35/10)]
    threshold := 3
    mutation_rate := 1/10 }]

/-- `PathogenDetection` record (region offsets, remediation text and the
timestamp play no role in any property and are not represented). -/
structure PathogenDetection where
  pathogen_type : PathogenType
  severity : PathogenSeverity
  confidence : Rat
  matched_patterns : List String
deriving DecidableEq

/-- `marker_pattern = r'\b' + re.escape(marker) + r'\b'` (all markers are
plain letters, so `re.escape` is the identity on them). -/
def markerPattern (m : String) : String := "\\b" ++ m ++ "\\b"

/-- The `matches` dictionary built by `DriftDetector._scan_for_pathogen`:
each detection pattern with a positive count, plus one entry holding the
total semantic-marker count when that is positive. -/
def pathogenMatches (count : String → String → Nat) (text : String)
    (f : PathogenFingerprint) : List (String × Nat) :=
  let patMatches : List (String × Nat) :=
    (f.detection_patterns.map (fun p => (p, count p text))).filter (fun m => 0 < m.2)
  let semCount : Nat :=
    (f.semantic_markers.map (fun m => count (markerPattern m) text)).sum
  patMatches ++
    (if 0 < semCount then [("semantic_markers_" ++ f.pathogen_type.value, semCount)] else [])

/-- `DriftDetector._scan_for_pathogen` over a match-counting oracle
`count pattern text` standing for `len(re.finditer(pattern, text, IGNORECASE))`. -/
def scanForPathogen (count : String → String → Nat) (text : String)
    (f : PathogenFingerprint) : Option PathogenDetection :=
  let mtchs := pathogenMatches count text f
  let severity := f.calculate_severity mtchs
  if mtchs = [] ∨ severity = .low then none
  else
    let density : Rat := ((mtchs.map (·.2)).sum : Rat) / max ((text.length : Rat) / 100) 1
    some { pathogen_type := f.pathogen_type
           severity := severity
           confidence := min (95/100) (density * (3/10) + 1/10)
           matched_patterns := mtchs.map (·.1) }

/-- Severity-to-penalty table used when reducing the health score. -/
def severityImpact : PathogenSeverity → Rat
  | .low => 1/10
  | .medium => 25/100
  | .high => 4/10
  | .critical => 7/10

/-- `DriftScanResult` (scanned text and timestamp omitted). -/
structure DriftScanResult where
  pathogens_detected : List PathogenDetection
  overall_health_score : Rat
  ric_vote_recommendation : String
deriving DecidableEq

/-- `DriftDetector._generate_ric_vote`. -/
def generateRicVote (detections : List PathogenDetection) (health_score : Rat) : String :=
  let critical_count := (detections.filter (fun d => d.severity == .critical)).length
  let high_count := (detections.filter (fun d => d.severity == .high)).length
  if critical_count ≥ 2 ∨ health_score < 3/10 then "Block"
  else if critical_count ≥ 1 ∨ high_count ≥ 2 ∨ health_score < 5/10 then "Suggest"
  else if detections.length = 0 ∧ health_score > 9/10 then "Continue"
  else if health_score < 7/10 then "Suggest"
  else "Continue"

/-- `DriftDetector.scan_for_drift`: scan every fingerprint of the library,
subtract the per-detection penalty from the initial health 1.0, floor at 0,
and attach the RIC vote. -/
def scanForDrift (count : String → String → Nat) (text : String) : DriftScanResult :=
  let detections := pathogenLibrary.filterMap (scanForPathogen count text)
  let overall0 : Rat := detections.foldl (fun s d => s - severityImpact d.severity) 1
  let overall := max 0 overall0
  { pathogens_detected := detections
    overall_health_score := overall
    ric_vote_recommendation := generateRicVote detections overall }

/-- Number of detections of a given severity in a scan result. -/
def DriftScanResult.severityCount (r : DriftScanResult) (s : PathogenSeverity) : Nat :=
  (r.pathogens_detected.filter (fun d => d.severity == s)).length

/-! ### Facts about the scanner -/

theorem severityImpact_nonneg (s : PathogenSeverity) : 0 ≤ severityImpact s := by
  cases s <;> norm_num [severityImpact]

theorem foldl_sub_impact_le (l : List PathogenDetection) (s : Rat) :
    l.foldl (fun a d => a - severityImpact d.severity) s ≤ s := by
  induction l generalizing s with
  | nil => simp
  | cons d l ih =>
    simp only [List.foldl_cons]
    have h1 := ih (s - severityImpact d.severity)
    have h2 := severityImpact_nonneg d.severity
    linarith

theorem scanForPathogen_type_eq (count : String → String → Nat) (text : String)
    (f : PathogenFingerprint) (d : PathogenDetection)
    (h : scanForPathogen count text f = some d) : d.pathogen_type = f.pathogen_type := by
  rw [scanForPathogen] at h
  split at h
  · exact absurd h (by simp)
  · cases h; rfl

/-- A match-count oracle describing a text with two occurrences of
`family tradition` and three of an `(?:entire|whole|complete) ...` phrase:
weighted scores 7 ≥ 3·2 and 12 ≥ 3·3, two critical detections. -/
def criticalCountOracle : String → String → Nat := fun p _ =>
  if p = "family tradition" then 2
  else if p = "(?:entire|whole|complete) (?:world|universe|reality)" then 3
  else 0

/-- An oracle for a text whose only regex hits are `n` occurrences of the
single pattern `p0`. -/
def singlePatternOracle (p0 : String) (n : Nat) : String → String → Nat :=
  fun p _ => if p = p0 then n else 0

/-- C2: for every text (every match-count configuration), the overall health
score of `scan_for_drift` lies in [0, 1]; it is 1.0 minus the per-detection
penalties (low 0.1, medium 0.25, high 0.4, critical 0.7) floored at 0; and
whenever at least two detections are critical the vote is "Block". -/
theorem scanner_health_bounds_and_block_vote
    (count : String → String → Nat) (text : String) :
    0 ≤ (scanForDrift count text).overall_health_score ∧
    (scanForDrift count text).overall_health_score ≤ 1 ∧
    (2 ≤ (scanForDrift count text).severityCount .critical →
      (scanForDrift count text).ric_vote_recommendation = "Block") := by
  refine ⟨le_max_left _ _, ?_, ?_⟩
  · exact max_le (by norm_num) (foldl_sub_impact_le _ _)
  · intro h
    simp only [scanForDrift, DriftScanResult.severityCount] at h ⊢
    rw [generateRicVote, if_pos (Or.inl h)]

/-- Witness for `scanner_health_bounds_and_block_vote`: a concrete oracle
with two critical detections yields the vote "Block". -/
theorem scanner_health_bounds_and_block_vote_witness :
    2 ≤ (scanForDrift criticalCountOracle "x").severityCount .critical ∧
    (scanForDrift criticalCountOracle "x").ric_vote_recommendation = "Block" :=
  ⟨by with_unfolding_all decide,
   (scanner_health_bounds_and_block_vote criticalCountOracle "x").2.2
     (by with_unfolding_all decide)⟩

/-- The six pathogen types that actually receive a fingerprint in
`_initialize_pathogen_library`. -/
def libraryTypes : List PathogenType :=
  [.ancestral_drift, .sentimentality_bloom, .hallucinated_precision,
   .thematic_mutation, .time_jump_parasite, .scope_creep]

/-- C1 counterexample: the claim says all eight named pathogens have a
fingerprint in the library; in the source, `character_contamination` and
`tonal_infection` are enum members only and are never added to the library
built by `_initialize_pathogen_library`. -/
theorem pathogen_library_lacks_two_fingerprints :
    PathogenType.character_contamination ∉
        pathogenLibrary.map PathogenFingerprint.pathogen_type ∧
    PathogenType.tonal_infection ∉
        pathogenLibrary.map PathogenFingerprint.pathogen_type := by
  with_unfolding_all decide

/-- The sample detection produced for `ancestral_drift` by
`criticalCountOracle` on the one-character text "x". -/
def sampleAncestralDetection : PathogenDetection :=
  { pathogen_type := .ancestral_drift
    severity := .critical
    confidence := 7/10
    matched_patterns := ["family tradition"] }

/-- C1 amended: the fingerprint library covers exactly six of the eight
named pathogens; each of those six can produce a detection of its type given
enough weighted matches; and no scan ever reports the two types without a
fingerprint (character contamination, tonal infection). -/
theorem pathogen_library_six_detectable_types :
    pathogenLibrary.map PathogenFingerprint.pathogen_type = libraryTypes ∧
    (∃ m t, ((scanForDrift m t).pathogens_detected.map
        PathogenDetection.pathogen_type).contains .ancestral_drift) ∧
    (∃ m t, ((scanForDrift m t).pathogens_detected.map
        PathogenDetection.pathogen_type).contains .sentimentality_bloom) ∧
    (∃ m t, ((scanForDrift m t).pathogens_detected.map
        PathogenDetection.pathogen_type).contains .hallucinated_precision) ∧
    (∃ m t, ((scanForDrift m t).pathogens_detected.map
        PathogenDetection.pathogen_type).contains .thematic_mutation) ∧
    (∃ m t, ((scanForDrift m t).pathogens_detected.map
        PathogenDetection.pathogen_type).contains .time_jump_parasite) ∧
    (∃ m t, ((scanForDrift m t).pathogens_detected.map
        PathogenDetection.pathogen_type).contains .scope_creep) ∧
    (∀ (m : String → String → Nat) (t : String) (d : PathogenDetection),
      d ∈ (scanForDrift m t).pathogens_detected → d.pathogen_type ∈ libraryTypes) := by
  refine ⟨by with_unfolding_all decide,
    ⟨singlePatternOracle "family tradition" 1, "", by with_unfolding_all decide⟩,
    ⟨singlePatternOracle "soul(?:-?deep|(?:\\s+)touching)" 1, "", by with_unfolding_all decide⟩,
    ⟨singlePatternOracle "(?:exactly|precisely) \\d+" 1, "", by with_unfolding_all decide⟩,
    ⟨singlePatternOracle "(?:completely|totally|entirely) different" 1, "",
      by with_unfolding_all decide⟩,
    ⟨singlePatternOracle "(?:flashback|flash forward|time skip)" 1, "",
      by with_unfolding_all decide⟩,
    ⟨singlePatternOracle "(?:entire|whole|complete) (?:world|universe|reality)" 1, "",
      by with_unfolding_all decide⟩, ?_⟩
  intro m t d hd
  simp only [scanForDrift, List.mem_filterMap] at hd
  obtain ⟨f, hf, hscan⟩ := hd
  rw [scanForPathogen_type_eq m t f d hscan]
  have : f.pathogen_type ∈ pathogenLibrary.map PathogenFingerprint.pathogen_type :=
    List.mem_map_of_mem _ hf
  simpa [pathogenLibrary, libraryTypes] using this

/-- Witness for `pathogen_library_six_detectable_types`: a concrete detection
drawn from a concrete scan has one of the six library types. -/
theorem pathogen_library_six_detectable_types_witness :
    sampleAncestralDetection ∈
      (scanForDrift criticalCountOracle "x").pathogens_detected ∧
    sampleAncestralDetection.pathogen_type ∈ libraryTypes :=
  ⟨by with_unfolding_all decide,
   pathogen_library_six_detectable_types.2.2.2.2.2.2.2 criticalCountOracle "x"
     sampleAncestralDetection (by with_unfolding_all decide)⟩

/-! ## String utilities for the concretely implemented regexes -/

/-- ASCII uppercase letter (`[A-Z]`). -/
def isAsciiUpper (c : Char) : Bool := decide ('A' ≤ c) && decide (c ≤ 'Z')

/-- ASCII lowercase letter (`[a-z]`). -/
def isAsciiLower (c : Char) : Bool := decide ('a' ≤ c) && decide (c ≤ 'z')

/-- `\w` word character (`[a-zA-Z0-9_]`), used for `\b` boundaries. -/
def isWordChar (c : Char) : Bool := isAsciiUpper c || isAsciiLower c || c.isDigit || c == '_'

/-- Python `str.lower()` (ASCII texts). -/
def lowerStr (s : String) : String := String.mk (s.data.map Char.toLower)

/-- `sub` occurs as a contiguous sublist of `l`. -/
def subOccurs (sub : List Char) : List Char → Bool
  | [] => sub.isEmpty
  | c :: cs => sub.isPrefixOf (c :: cs) || subOccurs sub cs

/-- Python `sub in s` substring containment. -/
def strContains (s sub : String) : Bool := subOccurs sub.data s.data

/-- Maximal run of lowercase letters at the head of the list, with the rest. -/
def lowerRun : List Char → List Char × List Char
  | [] => ([], [])
  | c :: cs =>
    if isAsciiLower c then
      let r := lowerRun cs
      (c :: r.1, r.2)
    else ([], c :: cs)

theorem lowerRun_snd_length (l : List Char) : (lowerRun l).2.length ≤ l.length := by
  induction l with
  | nil => simp [lowerRun]
  | cons c cs ih =>
    simp only [lowerRun]
    split
    · simpa using Nat.le_succ_of_le ih
    · simp

/-- All matches of `re.findall(r'\b[A-Z][a-z]+\b', text)`, scanning left to
right without overlap: an uppercase letter at a word boundary followed by a
maximal nonempty run of lowercase letters that ends at a word boundary; on a
failed attempt the scan advances one character.  `prevWord` records whether
the preceding character is a word character. -/
def capWordsAux (prevWord : Bool) (l : List Char) : List (List Char) :=
  match l with
  | [] => []
  | c :: cs =>
    if isAsciiUpper c && !prevWord then
      let r := lowerRun cs
      if r.1 ≠ [] ∧ ¬ isWordChar (r.2.headD ' ') then
        (c :: r.1) :: capWordsAux true r.2
      else capWordsAux (isWordChar c) cs
    else capWordsAux (isWordChar c) cs
termination_by l.length
decreasing_by
  · have := lowerRun_snd_length cs
    simp only [List.length_cons]
    omega
  · simp only [List.length_cons]
    omega
  · simp only [List.length_cons]
    omega

/-- Capitalised-word extraction `re.findall(r'\b[A-Z][a-z]+\b', text)`. -/
def capWords (s : String) : List String :=
  (capWordsAux false s.data).map String.mk

/-- Maximal runs of word characters ("words" for whole-word regex matches). -/
def wordRunsAux (cur : List Char) : List Char → List (List Char)
  | [] => if cur = [] then [] else [cur.reverse]
  | c :: cs =>
    if isWordChar c then wordRunsAux (c :: cur) cs
    else if cur = [] then wordRunsAux [] cs
    else cur.reverse :: wordRunsAux [] cs

/-- The word runs of a string, in order of occurrence. -/
def wordRuns (s : String) : List String := (wordRunsAux [] s.data).map String.mk

/-! ## Constraint genome and guard chain (`recursive_expander.py`) -/

/-- `LigandType` enum. -/
inductive LigandType where
  | character_action
  | emotional_state
  | setting_detail
  | conflict_tension
  | dialogue_subtext
  | theme_resonance
  | obligation_fulfillment
deriving DecidableEq

/-- `.value` of the Python enum member. -/
def LigandType.value : LigandType → String
  | .character_action => "character_action"
  | .emotional_state => "emotional_state"
  | .setting_detail => "setting_detail"
  | .conflict_tension => "conflict_tension"
  | .dialogue_subtext => "dialogue_subtext"
  | .theme_resonance => "theme_resonance"
  | .obligation_fulfillment => "obligation_fulfillment"

/-- `Ligand` dataclass. -/
structure Ligand where
  id : String
  type : LigandType
  content : String
  scope_constraints : List String
  emotional_vector : String
  obligation_anchor : Option String
  depth_level : Int
deriving DecidableEq

/-- `not s.strip()`: every character is whitespace. -/
def strIsBlank (s : String) : Bool := s.data.all Char.isWhitespace

/-- `Ligand.__post_init__`: constructing a ligand raises `ValueError` on
blank content or a depth level outside [1, 5]. -/
def Ligand.build (id : String) (type : LigandType) (content : String)
    (scope : List String) (emo : String) (obl : Option String) (depth : Int) :
    Except String Ligand :=
  if strIsBlank content then .error "Ligand content cannot be empty"
  else if depth < 1 ∨ depth > 5 then .error "Depth level must be between 1-5"
  else .ok ⟨id, type, content, scope, emo, obl, depth⟩

/-- `ConstraintGenome` dataclass; `extraction_timestamp` is the
`datetime.now()` value passed in by the caller. -/
structure ConstraintGenome where
  seed_text : String
  beat_text : String
  obligations : List String
  characters : List String
  tone_vector : String
  scope_entities : List String
  ligands : List Ligand
  extraction_timestamp : Nat
deriving DecidableEq

/-- The five modal-verb obligation patterns of `_extract_obligations`. -/
def obligationPatterns : List String := [
  "must\\s+(\\w+(?:\\s+\\w+)*)",
  "needs?\\s+to\\s+(\\w+(?:\\s+\\w+)*)",
  "has\\s+to\\s+(\\w+(?:\\s+\\w+)*)",
  "should\\s+(\\w+(?:\\s+\\w+)*)",
  "will\\s+(\\w+(?:\\s+\\w+)*)"]

/-- `RecursiveExpander._extract_obligations` over a `re.findall` oracle
(`findall p t` = the list of group-1 captures of pattern `p` in text `t`).
Python's `list(set(...))` returns the same elements in unspecified order;
modelled as first-occurrence deduplication. -/
def extractObligations (findall : String → String → List String)
    (seed beat : String) : List String :=
  let combined := seed ++ " " ++ beat
  let obligations := (obligationPatterns.map (fun p => findall p combined)).join
  let obligations := if obligations = [] then ["advance the narrative"] else obligations
  obligations.eraseDups

/-- Stop-list of `_extract_characters`. -/
def commonWords : List String :=
  ["The", "This", "That", "And", "But", "Or", "In", "On", "At", "To", "For"]

/-- `RecursiveExpander._extract_characters`: capitalised words minus the
stop-list, deduplicated. -/
def extractCharacters (seed beat : String) : List String :=
  let potential_names := capWords (seed ++ " " ++ beat)
  (potential_names.filter (fun n => ¬ commonWords.contains n)).eraseDups

/-- Keyword sets of `_extract_tone_vector`. -/
def positiveWords : List String :=
  ["happy", "joy", "smile", "bright", "hope", "love", "peace"]

def negativeWords : List String :=
  ["sad", "dark", "fear", "anger", "death", "pain", "despair"]

def neutralWords : List String :=
  ["calm", "quiet", "steady", "normal", "regular"]

/-- `RecursiveExpander._extract_tone_vector`: majority keyword count wins,
ties resolve to neutral. -/
def extractToneVector (seed beat : String) : String :=
  let combined := lowerStr (seed ++ " " ++ beat)
  let pos_count := (positiveWords.filter (fun w => strContains combined w)).length
  let neg_count := (negativeWords.filter (fun w => strContains combined w)).length
  let neut_count := (neutralWords.filter (fun w => strContains combined w)).length
  if pos_count > neg_count ∧ pos_count > neut_count then "positive"
  else if neg_count > pos_count ∧ neg_count > neut_count then "negative"
  else "neutral"

/-- The literal whole-word location alternation of `_extract_scope_entities`. -/
def locationWords : List String :=
  ["house", "home", "room", "kitchen", "bedroom", "office", "street", "park",
   "forest", "mountain", "city", "town", "village"]

/-- The second location pattern (two capture groups, so `re.findall` yields
pairs and the source keeps `match[1]`). -/
def prepPattern : String := "\\b(in|at|on|near|by)\\s+(?:the\\s+)?(\\w+)"

/-- `RecursiveExpander._extract_scope_entities`.  The first pattern
`\b(house|...|village)\b` is a whole-word alternation implemented concretely
(its matches are exactly the word runs equal to one of the alternatives);
the second is modelled by the pair-returning `findallPairs` oracle. -/
def extractScopeEntities (findallPairs : String → String → List (String × String))
    (seed beat : String) : List String :=
  let combined := lowerStr (seed ++ " " ++ beat)
  let e1 := (wordRuns combined).filter (fun w => locationWords.contains w)
  let e2 := (findallPairs prepPattern combined).map (·.2)
  ((e1 ++ e2) ++ extractCharacters seed beat).eraseDups

/-- `RecursiveExpander._init_extraction_patterns` (dict insertion order). -/
def ligandExtractionPatterns : List (LigandType × List String) := [
  (.character_action, [
    "(\\w+)\\s+(walked|ran|looked|said|thought|felt)",
    "(\\w+)\\\x27s\\s+(eyes|hands|voice|expression)",
    "(\\w+)\\s+(hesitated|paused|smiled|frowned)"]),
  (.emotional_state, [
    "(anxiety|fear|joy|sadness|anger|hope|despair)",
    "(felt|feeling|emotion|mood)\\s+(\\w+)",
    "(tension|pressure|relief|comfort)"]),
  (.setting_detail, [
    "(the|a)\\s+(room|house|street|forest|mountain)",
    "(air|atmosphere|environment)\\s+(was|felt|seemed)",
    "(light|shadow|darkness|brightness)"]),
  (.conflict_tension, [
    "(conflict|tension|disagreement|argument)",
    "(against|opposed|conflicted|struggled)",
    "(problem|issue|challenge|obstacle)"]),
  (.dialogue_subtext, [
    "\"([^\"]+)\"\\s+(he|she|they)\\s+(said|whispered|shouted)",
    "(unspoken|implied|suggested|hinted)",
    "(between the lines|subtext|meaning)"]),
  (.theme_resonance, [
    "(theme|meaning|significance|purpose)",
    "(represents|symbolizes|embodies|reflects)",
    "(deeper|profound|surface|shallow)"])]

/-- `RecursiveExpander._extract_ligands_by_type` over a `re.finditer` oracle
(`finditer0 p t` = list of whole-match texts `match.group(0)`).  Ligand
construction validates `__post_init__`, and a `ValueError` propagates. -/
def extractLigandsByType (finditer0 : String → String → List String)
    (text : String) (lt : LigandType) (patterns : List String)
    (scope : List String) (tone : String) : Except String (List Ligand) := do
  let nested ← patterns.enum.mapM (fun ip =>
    (finditer0 ip.2 text).enum.mapM (fun jm =>
      Ligand.build (lt.value ++ "_" ++ toString ip.1 ++ "_" ++ toString jm.1)
        lt jm.2 scope tone none 1))
  pure nested.join

/-- `RecursiveExpander._create_obligation_ligands`. -/
def createObligationLigands (obligations scope : List String) (tone : String) :
    Except String (List Ligand) :=
  obligations.enum.mapM (fun io =>
    Ligand.build ("obligation_" ++ toString io.1) .obligation_fulfillment
      ("fulfill: " ++ io.2) scope tone (some io.2) 2)

/-- The full ligand list assembled by `extract_beat_ligands` (pattern
ligands in dict order, then the obligation ligands). -/
def extractLigandsAll (finditer0 : String → String → List String)
    (obligations scope : List String) (tone : String)
    (seed beat : String) : Except String (List Ligand) := do
  let combined := seed ++ " " ++ beat
  let perType ← ligandExtractionPatterns.mapM (fun tp =>
    extractLigandsByType finditer0 combined tp.1 tp.2 scope tone)
  let obligationLigands ← createObligationLigands obligations scope tone
  pure (perType.join ++ obligationLigands)

/-- `RecursiveExpander.extract_beat_ligands`: the genome extractor.
`now` is the `datetime.now()` timestamp recorded in the genome. -/
def extractBeatLigands (finditer0 findall1 : String → String → List String)
    (findallPairs : String → String → List (String × String))
    (seed beat : String) (now : Nat) : Except String ConstraintGenome :=
  let obligations := extractObligations findall1 seed beat
  let characters := extractCharacters seed beat
  let tone := extractToneVector seed beat
  let scope := extractScopeEntities findallPairs seed beat
  match extractLigandsAll finditer0 obligations scope tone seed beat with
  | .error e => .error e
  | .ok ligands => .ok
      { seed_text := seed
        beat_text := beat
        obligations := obligations
        characters := characters
        tone_vector := tone
        scope_entities := scope
        ligands := ligands
        extraction_timestamp := now }

/-- `GuardChainResult` enum. -/
inductive GuardChainResult where
  | pass
  | fail_entity_scope
  | fail_proof_anchor
  | fail_emotional_vector
  | fail_surface_depth
deriving DecidableEq

/-- `ExpansionCandidate` dataclass.  The declared type of `target_ligand`
is `Ligand` (never `None`), and a dataclass instance is always truthy, so
the source's `if not expansion.target_ligand` branch can never fire. -/
structure ExpansionCandidate where
  content : String
  target_ligand : Ligand
  proposed_depth : Int
  emotional_tone : String
  entities_introduced : List String
  obligations_addressed : List String
deriving DecidableEq

/-- `RecursiveExpander._extract_entities_from_text`. -/
def extractEntitiesFromText (text : String) : List String := capWords text

/-- Generic entities allowed by `_is_allowed_generic_entity`. -/
def allowedGenericEntities : List String :=
  ["He", "She", "They", "It", "This", "That", "The", "A", "An",
   "Someone", "Something", "Everyone", "Everything", "Nobody", "Nothing"]

def isAllowedGenericEntity (e : String) : Bool := allowedGenericEntities.contains e

/-- Guard 1, `RecursiveExpander._check_entity_scope`. -/
def checkEntityScope (c : ExpansionCandidate) (g : ConstraintGenome) : GuardChainResult :=
  let expansion_entities := extractEntitiesFromText c.content
  let authorizedLower := g.scope_entities.map lowerStr
  let unauthorized := expansion_entities.filter
    (fun e => !(authorizedLower.contains (lowerStr e)) && !(isAllowedGenericEntity e))
  if unauthorized = [] then .pass else .fail_entity_scope

/-- Guard 2, `RecursiveExpander._check_proof_anchor`. -/
def checkProofAnchor (c : ExpansionCandidate) (g : ConstraintGenome) : GuardChainResult :=
  if c.obligations_addressed = [] ∧ c.target_ligand.obligation_anchor = none then
    .fail_proof_anchor
  else if c.obligations_addressed.any (fun o => !(g.obligations.contains o)) then
    .fail_proof_anchor
  else .pass

/-- Complementary tone transitions of `_is_complementary_emotion`. -/
def complementaryPairs : List (String × String) :=
  [("negative", "neutral"), ("neutral", "positive"),
   ("positive", "neutral"), ("neutral", "negative")]

def isComplementaryEmotion (required actual : String) : Bool :=
  complementaryPairs.contains (required, actual)

/-- Guard 3, `RecursiveExpander._check_emotional_vector`. -/
def checkEmotionalVector (c : ExpansionCandidate) (g : ConstraintGenome) : GuardChainResult :=
  if c.emotional_tone = "neutral" then .pass
  else if c.emotional_tone = g.tone_vector then .pass
  else if isComplementaryEmotion g.tone_vector c.emotional_tone then .pass
  else .fail_emotional_vector

/-- The obscuring-metaphor pattern list of `_contains_obscuring_metaphors`. -/
def obscuringPatterns : List String := [
  "like\\s+a\\s+(\\w+)\\s+in\\s+a\\s+(\\w+)",
  "as\\s+if\\s+(\\w+)\\s+were\\s+(\\w+)",
  "metaphorically\\s+speaking",
  "in\\s+a\\s+sense",
  "so\\s+to\\s+speak"]

/-- `RecursiveExpander._metaphor_components_related`: a stubbed
always-true placeholder in the source. -/
def metaphorComponentsRelated (_text : String) : Bool := true

/-- `RecursiveExpander._contains_obscuring_metaphors` over a `re.search`
oracle.  Because the relatedness check is stubbed to `True`, this always
returns `false`. -/
def containsObscuringMetaphors (search : String → String → Bool) (text : String) : Bool :=
  obscuringPatterns.any (fun p => search p text && !(metaphorComponentsRelated text))

/-- Guard 4, `RecursiveExpander._check_surface_depth_congruence`. -/
def checkSurfaceDepthCongruence (search : String → String → Bool)
    (c : ExpansionCandidate) (_g : ConstraintGenome) : GuardChainResult :=
  if (c.proposed_depth - c.target_ligand.depth_level).natAbs > 2 then .fail_surface_depth
  else if containsObscuringMetaphors search c.content then .fail_surface_depth
  else .pass

/-- `RecursiveExpander.guard_chain_passes`: the four layers in order,
stopping at the first failure. -/
def guardChainPasses (search : String → String → Bool) (c : ExpansionCandidate)
    (g : ConstraintGenome) : GuardChainResult :=
  let scope_result := checkEntityScope c g
  if scope_result ≠ .pass then scope_result
  else
    let anchor_result := checkProofAnchor c g
    if anchor_result ≠ .pass then anchor_result
    else
      let emotion_result := checkEmotionalVector c g
      if emotion_result ≠ .pass then emotion_result
      else
        let depth_result := checkSurfaceDepthCongruence search c g
        if depth_result ≠ .pass then depth_result
        else .pass

/-- The first non-pass result of a list of layer results. -/
def firstNonPass : List GuardChainResult → GuardChainResult
  | [] => .pass
  | r :: rs => if r ≠ .pass then r else firstNonPass rs

theorem checkEntityScope_cases (c : ExpansionCandidate) (g : ConstraintGenome) :
    checkEntityScope c g = .pass ∨ checkEntityScope c g = .fail_entity_scope := by
  simp only [checkEntityScope]
  split
  · exact Or.inl rfl
  · exact Or.inr rfl

/-- C3: the Guard Chain evaluates entity-scope, proof-anchor,
emotional-vector, surface-depth strictly in that order and returns the
first violated layer; in particular a candidate violating both the
entity-scope and the proof-anchor condition reports `fail_entity_scope`. -/
theorem guard_chain_layer_order (search : String → String → Bool)
    (c : ExpansionCandidate) (g : ConstraintGenome) :
    guardChainPasses search c g =
      firstNonPass [checkEntityScope c g, checkProofAnchor c g,
        checkEmotionalVector c g, checkSurfaceDepthCongruence search c g] ∧
    (checkEntityScope c g ≠ .pass → checkProofAnchor c g ≠ .pass →
      guardChainPasses search c g = .fail_entity_scope) := by
  constructor
  · rfl
  · intro h1 _h2
    have he := (checkEntityScope_cases c g).resolve_left h1
    simp only [guardChainPasses]
    rw [if_pos h1]
    exact he

/-- A genome with empty scope and only the default obligation. -/
def witnessGenome : ConstraintGenome :=
  { seed_text := "", beat_text := "", obligations := ["advance the narrative"],
    characters := [], tone_vector := "neutral", scope_entities := [],
    ligands := [], extraction_timestamp := 0 }

/-- A surface-level ligand with no obligation anchor. -/
def witnessLigand : Ligand :=
  { id := "L0", type := .character_action, content := "x", scope_constraints := [],
    emotional_vector := "neutral", obligation_anchor := none, depth_level := 1 }

/-- A candidate that introduces the out-of-scope entity "Zorro" and claims
an obligation absent from the genome: both guard 1 and guard 2 reject it. -/
def doubleViolationCandidate : ExpansionCandidate :=
  { content := "Zorro waited", target_ligand := witnessLigand, proposed_depth := 1,
    emotional_tone := "neutral", entities_introduced := ["Zorro"],
    obligations_addressed := ["fly"] }

/-- Witness for `guard_chain_layer_order`: the double violation reports the
entity-scope failure, never the proof-anchor one. -/
theorem guard_chain_layer_order_witness :
    checkEntityScope doubleViolationCandidate witnessGenome = .fail_entity_scope ∧
    checkProofAnchor doubleViolationCandidate witnessGenome = .fail_proof_anchor ∧
    guardChainPasses (fun _ _ => false) doubleViolationCandidate witnessGenome
      = .fail_entity_scope :=
  ⟨by with_unfolding_all decide, by with_unfolding_all decide,
   (guard_chain_layer_order (fun _ _ => false) doubleViolationCandidate witnessGenome).2
     (by with_unfolding_all decide) (by with_unfolding_all decide)⟩


/-! ### Totality and determinism of the extractor -/

theorem except_isOk_error {α : Type} (e : String) :
    (Except.error e : Except String α).isOk = false := rfl

theorem except_bind_ok {α β : Type} (a : α) (k : α → Except String β) :
    ((Except.ok a : Except String α) >>= k) = k a := rfl

theorem except_mapM_isOk {α β : Type} (f : α → Except String β) (l : List α)
    (h : ∀ a ∈ l, (f a).isOk = true) : (l.mapM f).isOk = true := by
  induction l with
  | nil => rfl
  | cons a l ih =>
    rw [List.mapM_cons]
    cases hfa : f a with
    | error e =>
      have := h a (by simp)
      rw [hfa, except_isOk_error] at this
      exact absurd this (by simp)
    | ok b =>
      rw [except_bind_ok]
      cases hm : l.mapM f with
      | error e =>
        have := ih (fun x hx => h x (by simp [hx]))
        rw [hm, except_isOk_error] at this
        exact absurd this (by simp)
      | ok bs => rw [except_bind_ok]; rfl

theorem ligand_build_isOk (id : String) (lt : LigandType) (content : String)
    (scope : List String) (emo : String) (obl : Option String) (depth : Int)
    (hc : strIsBlank content = false) (h1 : 1 ≤ depth) (h5 : depth ≤ 5) :
    (Ligand.build id lt content scope emo obl depth).isOk = true := by
  rw [Ligand.build, if_neg (by simp [hc]), if_neg (by omega)]
  rfl

theorem fulfill_content_not_blank (o : String) :
    strIsBlank ("fulfill: " ++ o) = false := by
  simp [strIsBlank, String.data_append]

theorem extractLigandsAll_isOk (finditer0 : String → String → List String)
    (obligations scope : List String) (tone : String) (seed beat : String)
    (hne : ∀ lt pats, (lt, pats) ∈ ligandExtractionPatterns → ∀ p ∈ pats,
      ∀ m ∈ finditer0 p (seed ++ " " ++ beat), strIsBlank m = false) :
    (extractLigandsAll finditer0 obligations scope tone seed beat).isOk = true := by
  rw [extractLigandsAll]
  have hper : ((ligandExtractionPatterns.mapM (fun tp =>
      extractLigandsByType finditer0 (seed ++ " " ++ beat) tp.1 tp.2 scope tone))).isOk
      = true := by
    apply except_mapM_isOk
    intro tp htp
    rw [extractLigandsByType]
    have hnested : ((tp.2.enum.mapM (fun ip =>
        (finditer0 ip.2 (seed ++ " " ++ beat)).enum.mapM (fun jm =>
          Ligand.build (tp.1.value ++ "_" ++ toString ip.1 ++ "_" ++ toString jm.1)
            tp.1 jm.2 scope tone none 1)))).isOk = true := by
      apply except_mapM_isOk
      intro ip hip
      apply except_mapM_isOk
      intro jm hjm
      apply ligand_build_isOk _ _ _ _ _ _ _ ?_ (by norm_num) (by norm_num)
      exact hne tp.1 tp.2 htp ip.2 (List.snd_mem_of_mem_enum hip)
        jm.2 (List.snd_mem_of_mem_enum hjm)
    cases hm : tp.2.enum.mapM (fun ip =>
        (finditer0 ip.2 (seed ++ " " ++ beat)).enum.mapM (fun jm =>
          Ligand.build (tp.1.value ++ "_" ++ toString ip.1 ++ "_" ++ toString jm.1)
            tp.1 jm.2 scope tone none 1)) with
    | error e => rw [hm, except_isOk_error] at hnested; exact absurd hnested (by simp)
    | ok bs => rw [except_bind_ok]; rfl
  have hob : ((createObligationLigands obligations scope tone)).isOk = true := by
    rw [createObligationLigands]
    apply except_mapM_isOk
    intro io _
    exact ligand_build_isOk _ _ _ _ _ _ _ (fulfill_content_not_blank io.2)
      (by norm_num) (by norm_num)
  cases hm : ligandExtractionPatterns.mapM (fun tp =>
      extractLigandsByType finditer0 (seed ++ " " ++ beat) tp.1 tp.2 scope tone) with
  | error e => rw [hm, except_isOk_error] at hper; exact absurd hper (by simp)
  | ok per =>
    rw [except_bind_ok]
    cases hmo : createObligationLigands obligations scope tone with
    | error e => rw [hmo, except_isOk_error] at hob; exact absurd hob (by simp)
    | ok obs => rw [except_bind_ok]; rfl

/-- Obligation list of a successful extraction (empty on error). -/
def exceptGenomeObligations : Except String ConstraintGenome → List String
  | .ok g => g.obligations
  | .error _ => []

/-- C7: for every seed/beat pair (including empty texts), genome extraction
returns a Constraint Genome without a `ValueError` (a regex match is never
blank, since every ligand pattern requires at least one word character); and
when no modal-verb obligation pattern matches the combined text the
obligations list is exactly `["advance the narrative"]`. -/
theorem extractor_total_and_default_obligation
    (finditer0 findall1 : String → String → List String)
    (findallPairs : String → String → List (String × String))
    (seed beat : String) (now : Nat)
    (hne : ∀ lt pats, (lt, pats) ∈ ligandExtractionPatterns → ∀ p ∈ pats,
      ∀ m ∈ finditer0 p (seed ++ " " ++ beat), strIsBlank m = false) :
    (extractBeatLigands finditer0 findall1 findallPairs seed beat now).isOk = true ∧
    ((∀ p ∈ obligationPatterns, findall1 p (seed ++ " " ++ beat) = []) →
      exceptGenomeObligations
        (extractBeatLigands finditer0 findall1 findallPairs seed beat now)
        = ["advance the narrative"]) := by
  have hall := extractLigandsAll_isOk finditer0
    (extractObligations findall1 seed beat)
    (extractScopeEntities findallPairs seed beat)
    (extractToneVector seed beat) seed beat hne
  constructor
  · rw [extractBeatLigands]
    cases hm : extractLigandsAll finditer0 (extractObligations findall1 seed beat)
        (extractScopeEntities findallPairs seed beat)
        (extractToneVector seed beat) seed beat with
    | error e => rw [hm, except_isOk_error] at hall; exact absurd hall (by simp)
    | ok ligs => rfl
  · intro hno
    have h1 := hno _ (show "must\\s+(\\w+(?:\\s+\\w+)*)" ∈ obligationPatterns by
      simp [obligationPatterns])
    have h2 := hno _ (show "needs?\\s+to\\s+(\\w+(?:\\s+\\w+)*)" ∈ obligationPatterns by
      simp [obligationPatterns])
    have h3 := hno _ (show "has\\s+to\\s+(\\w+(?:\\s+\\w+)*)" ∈ obligationPatterns by
      simp [obligationPatterns])
    have h4 := hno _ (show "should\\s+(\\w+(?:\\s+\\w+)*)" ∈ obligationPatterns by
      simp [obligationPatterns])
    have h5 := hno _ (show "will\\s+(\\w+(?:\\s+\\w+)*)" ∈ obligationPatterns by
      simp [obligationPatterns])
    have hobl : extractObligations findall1 seed beat = ["advance the narrative"] := by
      simp only [extractObligations, obligationPatterns, List.map_cons, List.map_nil]
      rw [h1, h2, h3, h4, h5]
      rfl
    rw [extractBeatLigands]
    cases hm : extractLigandsAll finditer0 (extractObligations findall1 seed beat)
        (extractScopeEntities findallPairs seed beat)
        (extractToneVector seed beat) seed beat with
    | error e => rw [hm, except_isOk_error] at hall; exact absurd hall (by simp)
    | ok ligs => simpa [exceptGenomeObligations] using hobl

/-- Witness for `extractor_total_and_default_obligation`: empty seed and
beat with a no-match regex engine yield a genome whose obligations are
exactly the default one. -/
theorem extractor_total_and_default_obligation_witness :
    (extractBeatLigands (fun _ _ => []) (fun _ _ => []) (fun _ _ => []) "" "" 0).isOk
      = true ∧
    exceptGenomeObligations
      (extractBeatLigands (fun _ _ => []) (fun _ _ => []) (fun _ _ => []) "" "" 0)
      = ["advance the narrative"] :=
  ⟨(extractor_total_and_default_obligation (fun _ _ => []) (fun _ _ => [])
      (fun _ _ => []) "" "" 0 (fun _ _ _ _ _ _ h => by simp at h)).1,
   (extractor_total_and_default_obligation (fun _ _ => []) (fun _ _ => [])
      (fun _ _ => []) "" "" 0 (fun _ _ _ _ _ _ h => by simp at h)).2
     (fun _ _ => rfl)⟩

/-- C9: genome extraction is deterministic: for a fixed seed/beat pair (and
fixed regex engine) two runs at different wall-clock times produce the same
obligations, characters, tone classification and ligand count. -/
theorem extractor_deterministic (finditer0 findall1 : String → String → List String)
    (findallPairs : String → String → List (String × String))
    (seed beat : String) (t1 t2 : Nat) :
    (extractBeatLigands finditer0 findall1 findallPairs seed beat t1).map
        (fun g => (g.obligations, g.characters, g.tone_vector, g.ligands.length)) =
    (extractBeatLigands finditer0 findall1 findallPairs seed beat t2).map
        (fun g => (g.obligations, g.characters, g.tone_vector, g.ligands.length)) := by
  rw [extractBeatLigands, extractBeatLigands]
  cases extractLigandsAll finditer0 (extractObligations findall1 seed beat)
      (extractScopeEntities findallPairs seed beat)
      (extractToneVector seed beat) seed beat <;> rfl

/-! ## ZC gates (`recursive_growth_pass.py`) -/

/-- `ZCGate`: a depletable, insight-resettable recursion budget
(`last_reset_time` is wall-clock state modelled by the loop's time oracle). -/
structure ZCGate where
  budget_remaining : Int
  initial_budget : Int
  iteration_count : Nat
deriving DecidableEq

/-- `ZCGate.can_continue`. -/
def ZCGate.can_continue (g : ZCGate) : Bool := g.budget_remaining > 0

/-- `ZCGate.consume_budget` (default amount 1): returns whether the
consumption succeeded together with the updated gate. -/
def ZCGate.consume_budget (g : ZCGate) (amount : Int) : Bool × ZCGate :=
  if g.budget_remaining ≥ amount then
    (true, { g with budget_remaining := g.budget_remaining - amount,
                    iteration_count := g.iteration_count + 1 })
  else (false, g)

/-- Python `int(x)`: truncation toward zero. -/
def pyInt (x : Rat) : Int := if 0 ≤ x then ⌊x⌋ else -⌊-x⌋

/-- `ZCGate.reset_on_insight`: partial refund
`min(initial, remaining + int(initial * quality))`. -/
def ZCGate.reset_on_insight (g : ZCGate) (insight_quality : Rat) : ZCGate :=
  let reset_amount := pyInt ((g.initial_budget : Rat) * insight_quality)
  { g with budget_remaining := min g.initial_budget (g.budget_remaining + reset_amount) }

/-- A gate operation in a growth pass: one budget consumption or one
insight reset of quality `q`. -/
inductive GateOp where
  | consume
  | reset (q : Rat)

def applyGateOp (g : ZCGate) : GateOp → ZCGate
  | .consume => (g.consume_budget 1).2
  | .reset q => g.reset_on_insight q

/-- A fresh gate at its ceiling. -/
def freshGate (c : Int) : ZCGate := { budget_remaining := c, initial_budget := c, iteration_count := 0 }

/-- C4 counterexample: the claim's reset formula
`min(ceiling, remaining + ceiling x q)` has no truncation; the code computes
`int(initial_budget * quality)` first.  Gate ceiling 5, remaining 0,
quality 1/2: the code yields 2, the claim's formula 5/2. -/
theorem zc_gate_reset_truncates :
    (((freshGate 5).consume_budget 5).2.reset_on_insight (1/2)).budget_remaining = 2 ∧
    ((((freshGate 5).consume_budget 5).2.reset_on_insight (1/2)).budget_remaining : Rat)
      ≠ min (5 : Rat) (0 + 5 * (1/2)) := by
  constructor
  · with_unfolding_all decide
  · with_unfolding_all decide

theorem applyGateOp_invariant (c : Int) (hc : 0 ≤ c) (g : ZCGate) (op : GateOp)
    (hr : ∀ r, op = GateOp.reset r → 0 ≤ r)
    (hg0 : 0 ≤ g.budget_remaining) (hgc : g.budget_remaining ≤ c)
    (hgi : g.initial_budget = c) :
    0 ≤ (applyGateOp g op).budget_remaining ∧
    (applyGateOp g op).budget_remaining ≤ c ∧
    (applyGateOp g op).initial_budget = c := by
  cases op with
  | consume =>
    simp only [applyGateOp, ZCGate.consume_budget]
    split
    · refine ⟨?_, ?_, ?_⟩ <;> simp <;> omega
    · exact ⟨hg0, hgc, hgi⟩
  | reset r =>
    have h0r := hr r rfl
    have hprod : (0:Rat) ≤ (g.initial_budget : Rat) * r := by
      apply mul_nonneg _ h0r
      rw [hgi]
      exact_mod_cast hc
    have hfl : 0 ≤ ⌊(g.initial_budget : Rat) * r⌋ := Int.floor_nonneg.mpr hprod
    simp only [applyGateOp, ZCGate.reset_on_insight, pyInt, if_pos hprod]
    refine ⟨?_, ?_, hgi⟩
    · exact le_min (by rw [hgi]; exact hc) (by omega)
    · rw [hgi]
      exact min_le_left _ _

theorem gate_fold_invariant (c : Int) (hc : 0 ≤ c) (ops : List GateOp)
    (hops : ∀ op ∈ ops, ∀ r, op = GateOp.reset r → 0 ≤ r) (g : ZCGate)
    (hg0 : 0 ≤ g.budget_remaining) (hgc : g.budget_remaining ≤ c)
    (hgi : g.initial_budget = c) :
    0 ≤ (ops.foldl applyGateOp g).budget_remaining ∧
    (ops.foldl applyGateOp g).budget_remaining ≤ c := by
  induction ops generalizing g with
  | nil => exact ⟨hg0, hgc⟩
  | cons op ops ih =>
    simp only [List.foldl_cons]
    have h := applyGateOp_invariant c hc g op (fun r hr => hops op (by simp) r hr) hg0 hgc hgi
    exact ih (fun o ho r hr => hops o (by simp [ho]) r hr) _ h.1 h.2.1 h.2.2

/-- C4 amended: a successful consumption (amount 1) decreases the remaining
budget by exactly 1 and leaves it nonnegative; an insight reset of quality
`q ≥ 0` sets the remaining budget to
`min(ceiling, remaining + floor(ceiling * q))` (the code truncates
`ceiling * q` with `int(...)` before adding); any sequence of consume/reset
operations starting from a fresh gate keeps the budget in [0, ceiling]; and
the concrete scenario (ceiling 5, consumed to 2, reset at quality 0.8) ends
at remaining 5. -/
theorem zc_gate_budget_discipline (g : ZCGate) (q : Rat) (c : Int) (ops : List GateOp)
    (hq : 0 ≤ q) (hb : 1 ≤ g.budget_remaining) (hinit : 0 ≤ g.initial_budget)
    (hc : 0 ≤ c) (hops : ∀ op ∈ ops, ∀ r, op = GateOp.reset r → 0 ≤ r) :
    ((g.consume_budget 1).1 = true ∧
      (g.consume_budget 1).2.budget_remaining = g.budget_remaining - 1 ∧
      0 ≤ (g.consume_budget 1).2.budget_remaining) ∧
    ((g.reset_on_insight q).budget_remaining
      = min g.initial_budget (g.budget_remaining + ⌊(g.initial_budget : Rat) * q⌋)) ∧
    (0 ≤ (ops.foldl applyGateOp (freshGate c)).budget_remaining ∧
      (ops.foldl applyGateOp (freshGate c)).budget_remaining ≤ c) ∧
    (((((freshGate 5).consume_budget 1).2.consume_budget 1).2.consume_budget 1).2.reset_on_insight
        (8/10)).budget_remaining = 5 := by
  refine ⟨?_, ?_, ?_, by with_unfolding_all decide⟩
  · constructor
    · simp [ZCGate.consume_budget, if_pos hb]
    constructor
    · simp [ZCGate.consume_budget, if_pos hb]
    · simp [ZCGate.consume_budget, if_pos hb]
      omega
  · have hprod : (0:Rat) ≤ (g.initial_budget : Rat) * q :=
      mul_nonneg (by exact_mod_cast hinit) hq
    simp only [ZCGate.reset_on_insight, pyInt, if_pos hprod]
  · exact gate_fold_invariant c hc ops hops (freshGate c) hc le_rfl rfl

/-- Witness for `zc_gate_budget_discipline` at gate (3, 5), quality 1,
ceiling 4 and the operation list [consume, reset 1]. -/
theorem zc_gate_budget_discipline_witness :
    ((⟨3, 5, 0⟩ : ZCGate).consume_budget 1).1 = true ∧
    (([GateOp.consume, GateOp.reset 1].foldl applyGateOp (freshGate 4)).budget_remaining ≤ 4) :=
  ⟨(zc_gate_budget_discipline ⟨3, 5, 0⟩ 1 4 [GateOp.consume, GateOp.reset 1]
      (by norm_num) (by norm_num) (by norm_num) (by norm_num)
      (by intro op hop r hr
          simp at hop
          rcases hop with h | h
          · rw [h] at hr; simp at hr
          · rw [h] at hr
            injection hr with h1
            rw [← h1]
            norm_num)).1.1,
   (zc_gate_budget_discipline ⟨3, 5, 0⟩ 1 4 [GateOp.consume, GateOp.reset 1]
      (by norm_num) (by norm_num) (by norm_num) (by norm_num)
      (by intro op hop r hr
          simp at hop
          rcases hop with h | h
          · rw [h] at hr; simp at hr
          · rw [h] at hr
            injection hr with h1
            rw [← h1]
            norm_num)).2.2.1.2⟩

/-! ## Growth pass orchestrator (`recursive_growth_pass.py`) -/

/-- `GrowthPhase` enum (the five members the source defines). -/
inductive GrowthPhase where
  | seeding
  | elaboration
  | integration
  | saturation
  | termination
deriving DecidableEq

/-- The five ZC gate names configured by `initialize_growth_session`. -/
inductive GateId where
  | surface_expansion
  | deep_analysis
  | character_development
  | thematic_exploration
  | obligation_resolution
deriving DecidableEq

/-- The `zc_gates` dictionary: five fixed keys in insertion order. -/
structure Gates where
  surface_expansion : ZCGate
  deep_analysis : ZCGate
  character_development : ZCGate
  thematic_exploration : ZCGate
  obligation_resolution : ZCGate
deriving DecidableEq

def Gates.get (gs : Gates) : GateId → ZCGate
  | .surface_expansion => gs.surface_expansion
  | .deep_analysis => gs.deep_analysis
  | .character_development => gs.character_development
  | .thematic_exploration => gs.thematic_exploration
  | .obligation_resolution => gs.obligation_resolution

def Gates.set (gs : Gates) : GateId → ZCGate → Gates
  | .surface_expansion, g => { gs with surface_expansion := g }
  | .deep_analysis, g => { gs with deep_analysis := g }
  | .character_development, g => { gs with character_development := g }
  | .thematic_exploration, g => { gs with thematic_exploration := g }
  | .obligation_resolution, g => { gs with obligation_resolution := g }

/-- Sum of the remaining budgets of the five gates. -/
def Gates.totalBudget (gs : Gates) : Int :=
  gs.surface_expansion.budget_remaining + gs.deep_analysis.budget_remaining +
  gs.character_development.budget_remaining + gs.thematic_exploration.budget_remaining +
  gs.obligation_resolution.budget_remaining

/-- Gate table built by `initialize_growth_session` with the
`RecursionBudget` ceilings (5, 10, 8, 12, 15). -/
def initialGates : Gates :=
  { surface_expansion := freshGate 5
    deep_analysis := freshGate 10
    character_development := freshGate 8
    thematic_exploration := freshGate 12
    obligation_resolution := freshGate 15 }

/-- Dictionary iteration order of `self.zc_gates.values()`. -/
def gateOrder : List GateId :=
  [.surface_expansion, .deep_analysis, .character_development,
   .thematic_exploration, .obligation_resolution]

/-- `priority_map` of `_select_optimal_gate`. -/
def priorityMap : GrowthPhase → List GateId
  | .seeding => [.surface_expansion, .obligation_resolution]
  | .elaboration => [.deep_analysis, .character_development]
  | .integration => [.thematic_exploration, .character_development]
  | .saturation => [.obligation_resolution]
  | .termination => []

/-- Python `max(gates, key=budget_remaining)`: first maximum in iteration
order. -/
def maxByBudget (gs : Gates) : List GateId → Option GateId
  | [] => none
  | i :: rest =>
    match maxByBudget gs rest with
    | none => some i
    | some j =>
      if (gs.get j).budget_remaining > (gs.get i).budget_remaining then some j else some i

/-- `RecursiveGrowthPass._select_optimal_gate`. -/
def selectOptimalGate (phase : GrowthPhase) (gs : Gates) (active : List GateId) :
    Option GateId :=
  match (priorityMap phase).find? (fun t => active.contains t) with
  | some t => some t
  | none => maxByBudget gs active

/-- Which break ended the loop (instrumentation of the logged break
branches; `none` means the `iteration < max_iterations` bound was reached). -/
inductive StopReason where
  | ricSaturated
  | gatesExhausted
  | noGate
  | stagnantCounter
  | stagnantQuality
  | stagnantTime
deriving DecidableEq

/-- The orchestrator's mutable state: `RecursionState` and `GrowthMetrics`
fields, the local `expansions` and `iteration` variables of
`execute_growth_pass`, plus two pieces of instrumentation (the sequence of
phases assigned by `_update_growth_phase`, and the reason the loop stopped). -/
structure GrowthState where
  current_phase : GrowthPhase
  iteration_count : Nat
  stagnation_counter : Nat
  quality_trend : List Rat
  expansion_history : List String
  saturation_detected : Bool
  successful_expansions : Nat
  failed_expansions : Nat
  insights_generated : Nat
  budget_resets : Nat
  total_iterations : Nat
  average_expansion_quality : Rat
  growth_velocity : Rat
  saturation_events : Nat
  gates : Gates
  expansions : List String
  iterLocal : Nat
  phaseTrace : List GrowthPhase
  stopReason : Option StopReason
deriving DecidableEq

/-- The injected collaborators of one growth pass: the candidate generator
(`recursive_expander._generate_expansion_candidates`, indexed by iteration),
the guard chain (`recursive_expander.guard_chain_passes`), the optional
drift detector (`scan_and_vote`, returning health score and vote), the
optional RIC arbiter (`can_iterate`), and the `_detect_stagnation`
wall-clock comparison (`now - last_insight_time > 10 minutes`). -/
structure LoopEnv where
  candidates : Nat → List ExpansionCandidate
  guard : ExpansionCandidate → GuardChainResult
  drift : Option (String → Rat × String)
  ricCanIterate : Option (Nat → Bool)
  timeExceeded : Nat → Bool

/-- Python `l[-n:]`. -/
def lastN {α : Type} (l : List α) (n : Nat) : List α := l.drop (l.length - n)

/-- The phase computed by `_update_growth_phase` from the current metrics. -/
def phaseOf (st : GrowthState) : GrowthPhase :=
  if st.iteration_count = 0 then .seeding
  else if st.insights_generated = 0 ∧ 5 < st.iteration_count then .saturation
  else if st.saturation_detected = true then .termination
  else if 3 ≤ st.quality_trend.length ∧ ∀ q ∈ lastN st.quality_trend 3, q > 7/10 then
    .integration
  else if 0 < st.successful_expansions then .elaboration
  else .seeding

/-- `RecursiveGrowthPass._update_growth_phase` (also records the assigned
phase in the trace). -/
def updateGrowthPhase (st : GrowthState) : GrowthState :=
  { st with current_phase := phaseOf st, phaseTrace := st.phaseTrace ++ [phaseOf st] }

/-- `RecursiveGrowthPass._filter_candidates_for_gate`. -/
def filterCandidatesForGate (candidates : List ExpansionCandidate) (gate : GateId) :
    List ExpansionCandidate :=
  match gate with
  | .surface_expansion => candidates.filter (fun c => c.content.length < 200)
  | .deep_analysis => candidates.filter (fun c => 100 ≤ c.content.length)
  | .character_development => candidates.filter (fun c =>
      ["he", "she", "they", "character", "person"].any
        (fun w => strContains (lowerStr c.content) w))
  | .thematic_exploration => candidates.filter (fun c =>
      ["meaning", "significance", "represents", "symbolizes"].any
        (fun w => strContains (lowerStr c.content) w))
  | .obligation_resolution => candidates.filter (fun c => c.obligations_addressed ≠ [])

/-- `RecursiveGrowthPass._calculate_expansion_quality`: baseline 0.5 plus
length, obligation, drift-health and depth factors, capped at 1.0. -/
def calculateExpansionQuality (c : ExpansionCandidate) (driftHealth : Option Rat) : Rat :=
  let length_factor0 : Rat := min 1 ((c.content.length : Rat) / 150)
  let length_factor : Rat :=
    if length_factor0 > 8/10 then 1 - (length_factor0 - 8/10) * 2 else length_factor0
  let obligation_factor : Rat := if c.obligations_addressed ≠ [] then 3/10 else 0
  let drift_factor : Rat :=
    match driftHealth with
    | some h => h * (3/10)
    | none => 0
  let depth_factor : Rat := min (2/10) ((c.proposed_depth : Rat) * (5/100))
  min 1 (1/2 + length_factor * (3/10) + obligation_factor + drift_factor + depth_factor)

/-- `IterationResult` dataclass (`gate_used` as the gate id). -/
structure IterationResult where
  expansions : List String
  quality_scores : List Rat
  gate_used : GateId
  insight_generated : Bool
deriving DecidableEq

/-- The per-candidate body of `_execute_iteration`'s validation loop: guard
chain, then (when a drift detector is attached) `scan_and_vote` keeping only
Continue/Suggest votes, then the quality score.  `some (content, score)`
means the candidate was appended to `validated_expansions`/`quality_scores`. -/
def validateCandidate (env : LoopEnv) (c : ExpansionCandidate) : Option (String × Rat) :=
  if env.guard c = GuardChainResult.pass then
    match env.drift with
    | some scan =>
      let hv := scan c.content
      if hv.2 = "Continue" ∨ hv.2 = "Suggest" then
        some (c.content, calculateExpansionQuality c (some hv.1))
      else none
    | none => some (c.content, calculateExpansionQuality c none)
  else none

/-- `RecursiveGrowthPass._execute_iteration`: generate candidates, filter
for the gate, validate each through the guard chain and drift scan, and
score quality. -/
def executeIteration (env : LoopEnv) (st : GrowthState) (gate : GateId) :
    Option IterationResult :=
  let cands := env.candidates st.iterLocal
  if cands = [] then none
  else
    let filtered := filterCandidatesForGate cands gate
    if filtered = [] then none
    else
      let validated : List (String × Rat) := filtered.foldl (fun acc c =>
        match validateCandidate env c with
        | some p => acc ++ [p]
        | none => acc) []
      if validated = [] then none
      else some { expansions := validated.map (·.1)
                  quality_scores := validated.map (·.2)
                  gate_used := gate
                  insight_generated := decide (0 < validated.length) }

/-- `RecursiveGrowthPass._process_iteration_result`. -/
def processIterationResult (res : IterationResult) (gate : GateId) (st : GrowthState) :
    GrowthState :=
  let st := { st with successful_expansions := st.successful_expansions + res.expansions.length }
  let avg : Rat :=
    if res.quality_scores ≠ [] then
      res.quality_scores.sum / (res.quality_scores.length : Rat)
    else 0
  let trend0 := st.quality_trend ++ [avg]
  let trend := if 10 < trend0.length then trend0.drop 1 else trend0
  let st := { st with quality_trend := trend
                      expansion_history := st.expansion_history ++ res.expansions }
  let st := { st with gates := st.gates.set gate ((st.gates.get gate).consume_budget 1).2 }
  if res.insight_generated = true ∧ avg > 7/10 then
    { st with gates := st.gates.set gate ((st.gates.get gate).reset_on_insight avg)
              insights_generated := st.insights_generated + 1
              budget_resets := st.budget_resets + 1
              stagnation_counter := 0 }
  else { st with stagnation_counter := st.stagnation_counter + 1 }

/-- `RecursiveGrowthPass._detect_stagnation`, recording which of the three
early-returned conditions fires first (`timeFlag` is the wall-clock
comparison against the 10-minute threshold). -/
def detectStagnationReason (timeFlag : Bool) (st : GrowthState) : Option StopReason :=
  if 5 ≤ st.stagnation_counter then some .stagnantCounter
  else if 5 ≤ st.quality_trend.length ∧ (lastN st.quality_trend 5).sum / 5 < 3/10 then
    some .stagnantQuality
  else if timeFlag then some .stagnantTime
  else none

/-- One iteration of the `while` body of `execute_growth_pass`; the Bool is
`true` when the loop continues to the next iteration. -/
def growthStep (env : LoopEnv) (st : GrowthState) : Bool × GrowthState :=
  let st1 := updateGrowthPhase st
  let ricBlocked :=
    match env.ricCanIterate with
    | some f => !(f st1.iterLocal)
    | none => false
  if ricBlocked then (false, { st1 with stopReason := some .ricSaturated })
  else
    let active := gateOrder.filter (fun i => (st1.gates.get i).can_continue)
    if active = [] then
      (false, { st1 with saturation_detected := true, stopReason := some .gatesExhausted })
    else
      match selectOptimalGate st1.current_phase st1.gates active with
      | none => (false, { st1 with stopReason := some .noGate })
      | some gate =>
        let st2 :=
          match executeIteration env st1 gate with
          | some res =>
            { processIterationResult res gate st1 with
                expansions := st1.expansions ++ res.expansions }
          | none =>
            { st1 with failed_expansions := st1.failed_expansions + 1
                       gates := st1.gates.set gate ((st1.gates.get gate).consume_budget 1).2 }
        let st3 := { st2 with iterLocal := st2.iterLocal + 1 }
        let st4 := { st3 with iteration_count := st3.iterLocal
                              total_iterations := st3.iterLocal }
        match detectStagnationReason (env.timeExceeded st4.iterLocal) st4 with
        | some r => (false, { st4 with stopReason := some r })
        | none => (true, st4)

/-- The `while iteration < max_iterations and not saturation_detected` loop,
as a fuel recursion on the remaining iteration allowance. -/
def growthLoop (env : LoopEnv) : Nat → GrowthState → GrowthState
  | 0, st => st
  | n + 1, st =>
    if st.saturation_detected = true then st
    else
      let step := growthStep env st
      if step.1 then growthLoop env n step.2 else step.2

/-- The state set up by `initialize_growth_session`. -/
def initialGrowthState : GrowthState :=
  { current_phase := .seeding
    iteration_count := 0
    stagnation_counter := 0
    quality_trend := []
    expansion_history := []
    saturation_detected := false
    successful_expansions := 0
    failed_expansions := 0
    insights_generated := 0
    budget_resets := 0
    total_iterations := 0
    average_expansion_quality := 0
    growth_velocity := 0
    saturation_events := 0
    gates := initialGates
    expansions := []
    iterLocal := 0
    phaseTrace := []
    stopReason := none }

/-- `RecursiveGrowthPass._finalize_growth_pass`. -/
def finalizeGrowthPass (st : GrowthState) : GrowthState :=
  let st :=
    if 0 < st.total_iterations then
      { st with
        average_expansion_quality :=
          if st.quality_trend ≠ [] then
            st.quality_trend.sum / (st.quality_trend.length : Rat)
          else 0
        growth_velocity := (st.successful_expansions : Rat) / (st.total_iterations : Rat) }
    else st
  let st :=
    if st.saturation_detected = true then
      { st with saturation_events := st.saturation_events + 1 }
    else st
  if 0 < st.successful_expansions then { st with current_phase := .termination }
  else { st with current_phase := .saturation }

/-- `GrowthPhase.<NAME>` attribute access: the source enum defines exactly
the five members below; any other name raises `AttributeError`. -/
def growthPhaseAttr (name : String) : Except String GrowthPhase :=
  if name = "SEEDING" then .ok .seeding
  else if name = "ELABORATION" then .ok .elaboration
  else if name = "INTEGRATION" then .ok .integration
  else if name = "SATURATION" then .ok .saturation
  else if name = "TERMINATION" then .ok .termination
  else .error ("AttributeError: type object GrowthPhase has no attribute " ++ name)

/-- `RecursiveGrowthPass._check_payoff_opportunities` (with the FPD module
present): evaluating the membership test
`current_phase in [GrowthPhase.EXPANSION, GrowthPhase.REFINEMENT]` first
evaluates the two attribute accesses, the first of which raises. -/
def checkPayoffOpportunities (st : GrowthState) : Except String Unit :=
  match growthPhaseAttr "EXPANSION" with
  | .error e => .error e
  | .ok p1 =>
    match growthPhaseAttr "REFINEMENT" with
    | .error e => .error e
    | .ok p2 =>
      if st.current_phase = p1 ∨ st.current_phase = p2 then .ok () else .ok ()

/-- `RecursiveGrowthPass.execute_growth_pass` on a freshly initialised
session: when the bundled elegance modules import, `'fpd'` is in
`self.elegance_modules` and the payoff hook runs before the loop; an
exception from it propagates to the caller. -/
def executeGrowthPassPy (fpdPresent : Bool) (env : LoopEnv) (maxIterations : Nat) :
    Except String (List String × GrowthState) :=
  let runLoop : Except String (List String × GrowthState) :=
    let final := finalizeGrowthPass (growthLoop env maxIterations initialGrowthState)
    .ok (final.expansions, final)
  if fpdPresent then
    match checkPayoffOpportunities initialGrowthState with
    | .error e => .error e
    | .ok _ => runLoop
  else runLoop

/-! ### The loop executes at most `max_iterations` iterations -/

@[simp] theorem updateGrowthPhase_iterLocal (st : GrowthState) :
    (updateGrowthPhase st).iterLocal = st.iterLocal := rfl

@[simp] theorem updateGrowthPhase_total (st : GrowthState) :
    (updateGrowthPhase st).total_iterations = st.total_iterations := rfl

@[simp] theorem updateGrowthPhase_gates (st : GrowthState) :
    (updateGrowthPhase st).gates = st.gates := rfl

@[simp] theorem updateGrowthPhase_stagnation (st : GrowthState) :
    (updateGrowthPhase st).stagnation_counter = st.stagnation_counter := rfl

@[simp] theorem updateGrowthPhase_trend (st : GrowthState) :
    (updateGrowthPhase st).quality_trend = st.quality_trend := rfl

@[simp] theorem updateGrowthPhase_saturation (st : GrowthState) :
    (updateGrowthPhase st).saturation_detected = st.saturation_detected := rfl

@[simp] theorem updateGrowthPhase_successes (st : GrowthState) :
    (updateGrowthPhase st).successful_expansions = st.successful_expansions := rfl

@[simp] theorem updateGrowthPhase_insights (st : GrowthState) :
    (updateGrowthPhase st).insights_generated = st.insights_generated := rfl

@[simp] theorem updateGrowthPhase_failed (st : GrowthState) :
    (updateGrowthPhase st).failed_expansions = st.failed_expansions := rfl

@[simp] theorem updateGrowthPhase_stopReason (st : GrowthState) :
    (updateGrowthPhase st).stopReason = st.stopReason := rfl

theorem processIterationResult_iterLocal (res : IterationResult) (gate : GateId)
    (st : GrowthState) : (processIterationResult res gate st).iterLocal = st.iterLocal := by
  simp only [processIterationResult]
  split <;> split <;> rfl

theorem processIterationResult_total (res : IterationResult) (gate : GateId)
    (st : GrowthState) :
    (processIterationResult res gate st).total_iterations = st.total_iterations := by
  simp only [processIterationResult]
  split <;> split <;> rfl

theorem processIterationResult_saturation (res : IterationResult) (gate : GateId)
    (st : GrowthState) :
    (processIterationResult res gate st).saturation_detected = st.saturation_detected := by
  simp only [processIterationResult]
  split <;> split <;> rfl

theorem processIterationResult_stopReason (res : IterationResult) (gate : GateId)
    (st : GrowthState) :
    (processIterationResult res gate st).stopReason = st.stopReason := by
  simp only [processIterationResult]
  split <;> split <;> rfl

theorem growthStep_iterLocal (env : LoopEnv) (st : GrowthState) :
    (growthStep env st).2.iterLocal ≤ st.iterLocal + 1 := by
  simp only [growthStep]
  repeat' split
  all_goals simp [processIterationResult_iterLocal]

theorem growthStep_total (env : LoopEnv) (st : GrowthState)
    (h : st.total_iterations = st.iterLocal) :
    (growthStep env st).2.total_iterations = (growthStep env st).2.iterLocal := by
  simp only [growthStep]
  repeat' split
  all_goals simp [h]

theorem growthLoop_iterLocal (env : LoopEnv) (n : Nat) (st : GrowthState) :
    (growthLoop env n st).iterLocal ≤ st.iterLocal + n := by
  induction n generalizing st with
  | zero => simp [growthLoop]
  | succ n ih =>
    simp only [growthLoop]
    split
    · omega
    · split
      · have h1 := ih (growthStep env st).2
        have h2 := growthStep_iterLocal env st
        omega
      · have := growthStep_iterLocal env st
        omega

theorem growthLoop_total (env : LoopEnv) (n : Nat) (st : GrowthState)
    (h : st.total_iterations = st.iterLocal) :
    (growthLoop env n st).total_iterations = (growthLoop env n st).iterLocal := by
  induction n generalizing st with
  | zero => simpa [growthLoop] using h
  | succ n ih =>
    simp only [growthLoop]
    split
    · exact h
    · split
      · exact ih (growthStep env st).2 (growthStep_total env st h)
      · exact growthStep_total env st h

/-- C5: the claimed bound holds of the loop itself — for every candidate
source, guard, drift detector and RIC oracle the loop body runs at most `N`
times, even when every candidate is rejected — but `execute_growth_pass` as
shipped never reaches the loop: with the bundled elegance modules imported,
the FPD hook `_check_payoff_opportunities` evaluates
`GrowthPhase.EXPANSION`, an attribute the enum does not define, and the call
raises `AttributeError` before iteration 1. -/
theorem growth_pass_fpd_attribute_error_and_loop_bound (env : LoopEnv) (N : Nat) :
    executeGrowthPassPy true env N =
      .error "AttributeError: type object GrowthPhase has no attribute EXPANSION" ∧
    (growthLoop env N initialGrowthState).total_iterations ≤ N := by
  constructor
  · with_unfolding_all rfl
  · have h1 := growthLoop_iterLocal env N initialGrowthState
    have h2 := growthLoop_total env N initialGrowthState rfl
    rw [h2]
    simpa [initialGrowthState] using h1

/-! ### Zero-candidate iterations: budget, stagnation counter -/

/-- An environment whose candidate source yields nothing (every iteration
is rejected / empty). -/
def emptyCandidateEnv : LoopEnv :=
  { candidates := fun _ => []
    guard := fun _ => .pass
    drift := none
    ricCanIterate := none
    timeExceeded := fun _ => false }

/-- A candidate of quality 0.55 (empty content, no obligations, depth 1):
validated but below the 0.7 insight threshold. -/
def lowQualityCandidate : ExpansionCandidate :=
  { content := "", target_ligand := witnessLigand, proposed_depth := 1,
    emotional_tone := "neutral", entities_introduced := [],
    obligations_addressed := [] }

/-- An environment producing one low-quality candidate each iteration. -/
def lowQualityEnv : LoopEnv :=
  { candidates := fun _ => [lowQualityCandidate]
    guard := fun _ => .pass
    drift := none
    ricCanIterate := none
    timeExceeded := fun _ => false }

/-- C6 counterexample: after one zero-candidate iteration the stagnation
counter is still 0 (though one budget unit was consumed: 50 -> 49), whereas
after one low-quality successful iteration it is 1 — the two are not
counted alike, contrary to the claim. -/
theorem zero_candidate_iteration_keeps_stagnation_counter :
    (growthLoop emptyCandidateEnv 1 initialGrowthState).stagnation_counter = 0 ∧
    (growthLoop emptyCandidateEnv 1 initialGrowthState).gates.totalBudget = 49 ∧
    (growthLoop lowQualityEnv 1 initialGrowthState).stagnation_counter = 1 := by
  refine ⟨?_, ?_, ?_⟩ <;> with_unfolding_all decide

theorem maxByBudget_mem (gs : Gates) : ∀ (l : List GateId) (i : GateId),
    maxByBudget gs l = some i → i ∈ l := by
  intro l
  induction l with
  | nil => intro i h; simp [maxByBudget] at h
  | cons a l ih =>
    intro i h
    simp only [maxByBudget] at h
    cases hm : maxByBudget gs l with
    | none =>
      rw [hm] at h
      rw [← Option.some.inj h]
      simp
    | some j =>
      rw [hm] at h
      replace h : (if (gs.get j).budget_remaining > (gs.get a).budget_remaining then
          some j else some a) = some i := h
      by_cases hgt : (gs.get j).budget_remaining > (gs.get a).budget_remaining
      · rw [if_pos hgt] at h
        rw [← Option.some.inj h]
        exact List.mem_cons_of_mem _ (ih j hm)
      · rw [if_neg hgt] at h
        rw [← Option.some.inj h]
        simp

theorem maxByBudget_spec (gs : Gates) : ∀ (l : List GateId), l ≠ [] →
    ∃ i, maxByBudget gs l = some i ∧ i ∈ l := by
  intro l
  induction l with
  | nil => intro h; exact absurd rfl h
  | cons a rest _ =>
    intro _
    simp only [maxByBudget]
    cases hm : maxByBudget gs rest with
    | none => exact ⟨a, rfl, by simp⟩
    | some j =>
      have hjmem : j ∈ rest := maxByBudget_mem gs rest j hm
      by_cases hgt : (gs.get j).budget_remaining > (gs.get a).budget_remaining
      · exact ⟨j, by show (if (gs.get j).budget_remaining > (gs.get a).budget_remaining then
            some j else some a) = some j; rw [if_pos hgt], by simp [hjmem]⟩
      · exact ⟨a, by show (if (gs.get j).budget_remaining > (gs.get a).budget_remaining then
            some j else some a) = some a; rw [if_neg hgt], by simp⟩

theorem selectOptimalGate_spec (phase : GrowthPhase) (gs : Gates) (active : List GateId)
    (h : active ≠ []) :
    ∃ i, selectOptimalGate phase gs active = some i ∧ i ∈ active := by
  rw [selectOptimalGate]
  cases hf : (priorityMap phase).find? (fun t => active.contains t) with
  | some t =>
    refine ⟨t, rfl, ?_⟩
    have := List.find?_some hf
    simpa using this
  | none => exact maxByBudget_spec gs active h

theorem totalBudget_set_consume (gs : Gates) (i : GateId)
    (h : (gs.get i).can_continue = true) :
    (gs.set i ((gs.get i).consume_budget 1).2).totalBudget = gs.totalBudget - 1 := by
  have hb : (1:Int) ≤ (gs.get i).budget_remaining := by
    have := of_decide_eq_true h
    omega
  cases i <;>
    (simp only [Gates.get] at hb
     simp only [Gates.set, Gates.get, Gates.totalBudget, ZCGate.consume_budget]
     split <;> simp <;> omega)

/-- C6 amended: an iteration that produces zero (validated) candidates
consumes one budget unit from the selected gate and counts one failed
expansion, but the stagnation counter is left unchanged — unlike a
low-quality successful iteration, which increments it; such iterations
count toward termination only through the iteration cap and the
time-since-insight check. -/
theorem zero_candidate_iteration_effect (env : LoopEnv) (st : GrowthState)
    (hric : env.ricCanIterate = none)
    (hcand : env.candidates st.iterLocal = [])
    (hactive : gateOrder.filter (fun i => (st.gates.get i).can_continue) ≠ []) :
    (growthStep env st).2.stagnation_counter = st.stagnation_counter ∧
    (growthStep env st).2.gates.totalBudget = st.gates.totalBudget - 1 ∧
    (growthStep env st).2.failed_expansions = st.failed_expansions + 1 := by
  obtain ⟨gate, hsel, hmem⟩ :=
    selectOptimalGate_spec (updateGrowthPhase st).current_phase st.gates _ hactive
  have hcc : (st.gates.get gate).can_continue = true := (List.mem_filter.mp hmem).2
  have hactive' : ¬(gateOrder.filter
      (fun i => ((updateGrowthPhase st).gates.get i).can_continue) = []) := hactive
  have hsel' : selectOptimalGate (updateGrowthPhase st).current_phase
      (updateGrowthPhase st).gates
      (gateOrder.filter (fun i => ((updateGrowthPhase st).gates.get i).can_continue))
      = some gate := hsel
  have hexec : executeIteration env (updateGrowthPhase st) gate = none := by
    rw [executeIteration, updateGrowthPhase_iterLocal, hcand]
    rfl
  simp only [growthStep, hric]
  rw [if_neg (by simp)]
  rw [if_neg hactive']
  simp only [hsel', hexec]
  split <;>
    exact ⟨rfl, totalBudget_set_consume st.gates gate hcc, rfl⟩

/-- Witness for `zero_candidate_iteration_effect` on the initial state with
an empty candidate source. -/
theorem zero_candidate_iteration_effect_witness :
    (growthStep emptyCandidateEnv initialGrowthState).2.stagnation_counter = 0 ∧
    (growthStep emptyCandidateEnv initialGrowthState).2.gates.totalBudget = 49 :=
  ⟨(zero_candidate_iteration_effect emptyCandidateEnv initialGrowthState rfl rfl
      (by with_unfolding_all decide)).1,
   by rw [(zero_candidate_iteration_effect emptyCandidateEnv initialGrowthState rfl rfl
        (by with_unfolding_all decide)).2.1]
      with_unfolding_all decide⟩

/-! ### Phase trajectory -/

/-- The high-quality obligation-addressing candidate served at iteration 7
(quality 0.5 + 0.3 + 0.2 = 1.0 > 0.7, so it triggers an insight). -/
def insightCandidate : ExpansionCandidate :=
  { content := "", target_ligand := witnessLigand, proposed_depth := 4,
    emotional_tone := "neutral", entities_introduced := [],
    obligations_addressed := ["advance the narrative"] }

/-- Six empty iterations, then one high-quality insight at iteration
index 6, nothing afterwards. -/
def lateInsightEnv : LoopEnv :=
  { candidates := fun n => if n = 6 then [insightCandidate] else []
    guard := fun _ => .pass
    drift := none
    ricCanIterate := none
    timeExceeded := fun _ => false }

/-- C8 counterexample: in a single 8-iteration pass, the phase assigned at
iteration 7 is saturation (zero insights after more than 5 iterations) and
the phase assigned at iteration 8 is elaboration — the phase moves from
saturation back to elaboration, which the claim says never happens. -/
theorem phase_returns_from_saturation_to_elaboration :
    (growthLoop lateInsightEnv 8 initialGrowthState).phaseTrace.get? 6
      = some GrowthPhase.saturation ∧
    (growthLoop lateInsightEnv 8 initialGrowthState).phaseTrace.get? 7
      = some GrowthPhase.elaboration := by
  constructor <;> with_unfolding_all decide

/-- Metric conditions that keep `_update_growth_phase` away from seeding:
at least one completed iteration, and a recorded success or the zero-insight
saturation condition or the saturation flag. -/
def metricsLock (st : GrowthState) : Prop :=
  1 ≤ st.iteration_count ∧
    (1 ≤ st.successful_expansions ∨
      (st.insights_generated = 0 ∧ 5 < st.iteration_count) ∨
      st.saturation_detected = true)

/-- No relapse to seeding: any entry at or after a non-seeding entry is
itself not seeding. -/
def noSeedRelapse (l : List GrowthPhase) : Prop :=
  ∀ i j, i ≤ j → l.get? i ≠ some GrowthPhase.seeding →
    l.get? j ≠ some GrowthPhase.seeding

theorem phaseOf_ne_seeding_of_lock (st : GrowthState) (h : metricsLock st) :
    phaseOf st ≠ GrowthPhase.seeding := by
  obtain ⟨h1, h2⟩ := h
  rw [phaseOf]
  split
  · omega
  · split
    · simp
    · split
      · simp
      · split
        · simp
        · split
          · simp
          · exfalso
            rcases h2 with hs | hi | hsat <;> simp_all

theorem lock_of_phase_ne_seeding (st : GrowthState)
    (htrend : st.quality_trend ≠ [] → 1 ≤ st.successful_expansions)
    (h : phaseOf st ≠ GrowthPhase.seeding) : metricsLock st := by
  rw [phaseOf] at h
  split at h
  · exact absurd rfl h
  · rename_i hc0
    refine ⟨by omega, ?_⟩
    split at h
    · rename_i hc1
      exact Or.inr (Or.inl ⟨hc1.1, hc1.2⟩)
    · split at h
      · rename_i hsat
        exact Or.inr (Or.inr hsat)
      · split at h
        · rename_i hc3
          refine Or.inl (htrend ?_)
          have := hc3.1
          intro hnil
          rw [hnil] at this
          simp at this
        · split at h
          · rename_i hc4
            exact Or.inl (by omega)
          · exact absurd rfl h

theorem noSeedRelapse_append_ne (l : List GrowthPhase) (p : GrowthPhase)
    (hl : noSeedRelapse l) (hp : p ≠ GrowthPhase.seeding) :
    noSeedRelapse (l ++ [p]) := by
  intro i j hij hi
  by_cases hj : j < l.length
  · rw [List.get?_append hj]
    have hi' : l.get? i ≠ some GrowthPhase.seeding := by
      rwa [List.get?_append (lt_of_le_of_lt hij hj)] at hi
    exact hl i j hij hi'
  · by_cases hj2 : j = l.length
    · subst hj2
      rw [List.get?_concat_length]
      simp [hp]
    · have hlen : (l ++ [p]).length ≤ j := by
        simp only [List.length_append, List.length_singleton]
        omega
      rw [List.get?_eq_none.mpr hlen]
      simp

theorem noSeedRelapse_append_seed (l : List GrowthPhase)
    (hall : ∀ q ∈ l, q = GrowthPhase.seeding) :
    noSeedRelapse (l ++ [GrowthPhase.seeding]) := by
  intro i j hij hi
  cases hq : (l ++ [GrowthPhase.seeding]).get? i with
  | some q =>
    exfalso
    have hqmem := List.get?_mem hq
    have hq2 : q = GrowthPhase.seeding := by
      rcases List.mem_append.mp hqmem with h | h
      · exact hall q h
      · simpa using h
    rw [hq, hq2] at hi
    exact hi rfl
  | none =>
    have hlen : (l ++ [GrowthPhase.seeding]).length ≤ i := List.get?_eq_none.mp hq
    rw [List.get?_eq_none.mpr (le_trans hlen hij)]
    simp

theorem processIterationResult_successes (res : IterationResult) (gate : GateId)
    (st : GrowthState) :
    (processIterationResult res gate st).successful_expansions
      = st.successful_expansions + res.expansions.length := by
  simp only [processIterationResult]
  split <;> split <;> rfl

theorem processIterationResult_phaseTrace (res : IterationResult) (gate : GateId)
    (st : GrowthState) :
    (processIterationResult res gate st).phaseTrace = st.phaseTrace := by
  simp only [processIterationResult]
  split <;> split <;> rfl

theorem processIterationResult_insights_of_no_insight (res : IterationResult)
    (gate : GateId) (st : GrowthState) :
    (processIterationResult res gate st).insights_generated = st.insights_generated ∨
    (processIterationResult res gate st).insights_generated = st.insights_generated + 1 := by
  simp only [processIterationResult]
  split <;> split <;> simp

theorem executeIteration_expansions_ne_nil (env : LoopEnv) (st : GrowthState)
    (gate : GateId) (res : IterationResult)
    (h : executeIteration env st gate = some res) : res.expansions ≠ [] := by
  simp only [executeIteration] at h
  split at h
  · exact absurd h (by simp)
  · split at h
    · exact absurd h (by simp)
    · split at h
      · exact absurd h (by simp)
      · rename_i hv
        rw [← Option.some.inj h]
        simpa using hv

@[simp] theorem updateGrowthPhase_count (st : GrowthState) :
    (updateGrowthPhase st).iteration_count = st.iteration_count := rfl

theorem growthStep_count_eq (env : LoopEnv) (st : GrowthState)
    (h : st.iteration_count = st.iterLocal) :
    (growthStep env st).2.iteration_count = (growthStep env st).2.iterLocal := by
  simp only [growthStep]
  repeat' split
  all_goals simp [h]

theorem growthStep_phaseTrace (env : LoopEnv) (st : GrowthState) :
    (growthStep env st).2.phaseTrace = st.phaseTrace ++ [phaseOf st] := by
  simp only [growthStep]
  repeat' split
  all_goals simp [updateGrowthPhase, processIterationResult_phaseTrace]

theorem growthStep_trendInv (env : LoopEnv) (st : GrowthState)
    (h : st.quality_trend ≠ [] → 1 ≤ st.successful_expansions) :
    (growthStep env st).2.quality_trend ≠ [] →
      1 ≤ (growthStep env st).2.successful_expansions := by
  simp only [growthStep]
  repeat' split
  all_goals intro htr
  all_goals first
    | (simp only [updateGrowthPhase] at htr ⊢; exact h htr)
    | skip
  all_goals rename_i res heq
  all_goals
    have hne := executeIteration_expansions_ne_nil env (updateGrowthPhase st) _ res heq
  all_goals
    simp only [processIterationResult_successes, updateGrowthPhase_successes]
  all_goals
    have : res.expansions.length ≠ 0 := fun hz => hne (List.eq_nil_of_length_eq_zero hz)
  all_goals omega

theorem growthStep_insInv (env : LoopEnv) (st : GrowthState)
    (h : st.successful_expansions = 0 → st.insights_generated = 0) :
    (growthStep env st).2.successful_expansions = 0 →
      (growthStep env st).2.insights_generated = 0 := by
  simp only [growthStep]
  repeat' split
  all_goals intro hs
  all_goals first
    | (simp only [updateGrowthPhase] at hs ⊢; exact h hs)
    | skip
  all_goals rename_i res heq
  all_goals
    have hne := executeIteration_expansions_ne_nil env (updateGrowthPhase st) _ res heq
  all_goals
    simp only [processIterationResult_successes, updateGrowthPhase_successes] at hs
  all_goals
    have : res.expansions.length ≠ 0 := fun hz => hne (List.eq_nil_of_length_eq_zero hz)
  all_goals omega

theorem growthStep_preserves_lock (env : LoopEnv) (st : GrowthState)
    (hcnt : st.iteration_count = st.iterLocal)
    (hlock : metricsLock st) : metricsLock (growthStep env st).2 := by
  obtain ⟨h1, h2⟩ := hlock
  simp only [growthStep]
  repeat' split
  all_goals first
    | exact ⟨h1, h2⟩
    | exact ⟨h1, Or.inr (Or.inr rfl)⟩
    | (rename_i res heq
       have hne := executeIteration_expansions_ne_nil env (updateGrowthPhase st) _ res heq
       have hlen : res.expansions.length ≠ 0 :=
         fun hz => hne (List.eq_nil_of_length_eq_zero hz)
       refine ⟨?_, Or.inl ?_⟩ <;>
         simp only [metricsLock, processIterationResult_iterLocal,
           processIterationResult_successes, updateGrowthPhase_iterLocal,
           updateGrowthPhase_successes] <;>
         omega)
    | (refine ⟨?_, ?_⟩
       · simp only [updateGrowthPhase_iterLocal]
         omega
       · rcases h2 with hs | ⟨hi, hc⟩ | hsat
         · exact Or.inl hs
         · refine Or.inr (Or.inl ⟨hi, ?_⟩)
           simp only [updateGrowthPhase_iterLocal]
           omega
         · exact Or.inr (Or.inr hsat))

/-- The invariant maintained by the loop: the iteration counter mirrors the
local variable, a nonempty quality trend implies a success, zero successes
imply zero insights, a non-seeding entry in the trace locks the metrics
away from seeding, and the trace never relapses to seeding. -/
def loopInv (st : GrowthState) : Prop :=
  st.iteration_count = st.iterLocal ∧
  (st.quality_trend ≠ [] → 1 ≤ st.successful_expansions) ∧
  (st.successful_expansions = 0 → st.insights_generated = 0) ∧
  ((∃ p ∈ st.phaseTrace, p ≠ GrowthPhase.seeding) → metricsLock st) ∧
  noSeedRelapse st.phaseTrace

theorem growthStep_loopInv (env : LoopEnv) (st : GrowthState)
    (h : loopInv st) : loopInv (growthStep env st).2 := by
  obtain ⟨hcnt, htrend, hins, hlockimp, hpairs⟩ := h
  have htrace := growthStep_phaseTrace env st
  by_cases hseed : phaseOf st = GrowthPhase.seeding
  · -- the appended phase is seeding: no earlier entry can be non-seeding
    have hallseed : ∀ q ∈ st.phaseTrace, q = GrowthPhase.seeding := by
      intro q hq
      by_contra hqne
      exact phaseOf_ne_seeding_of_lock st (hlockimp ⟨q, hq, hqne⟩) hseed
    refine ⟨growthStep_count_eq env st hcnt, growthStep_trendInv env st htrend,
      growthStep_insInv env st hins, ?_, ?_⟩
    · intro hex
      rw [htrace, hseed] at hex
      obtain ⟨p, hp, hpne⟩ := hex
      rcases List.mem_append.mp hp with hp1 | hp1
      · exact absurd (hallseed p hp1) hpne
      · exact absurd (by simpa using hp1) hpne
    · rw [htrace, hseed]
      exact noSeedRelapse_append_seed st.phaseTrace hallseed
  · -- the appended phase is not seeding
    have hlockst : metricsLock st := lock_of_phase_ne_seeding st htrend hseed
    refine ⟨growthStep_count_eq env st hcnt, growthStep_trendInv env st htrend,
      growthStep_insInv env st hins, ?_, ?_⟩
    · intro _
      exact growthStep_preserves_lock env st hcnt hlockst
    · rw [htrace]
      exact noSeedRelapse_append_ne st.phaseTrace (phaseOf st) hpairs hseed

theorem growthLoop_loopInv (env : LoopEnv) (n : Nat) (st : GrowthState)
    (h : loopInv st) : loopInv (growthLoop env n st) := by
  induction n generalizing st with
  | zero => simpa [growthLoop] using h
  | succ n ih =>
    simp only [growthLoop]
    split
    · exact h
    · split
      · exact ih _ (growthStep_loopInv env st h)
      · exact growthStep_loopInv env st h

/-- C8 amended: within a single growth pass the phase never returns to
seeding once a non-seeding phase has been assigned; elaboration and
integration may alternate; but the computed saturation phase is not sticky —
a first insight after the fifth iteration moves the phase from saturation
back to elaboration (or integration), so only the no-relapse-to-seeding part
of the claimed monotonicity holds (the saturation_detected flag, not the
phase value, is what terminates the pass). -/
theorem phase_never_relapses_to_seeding (env : LoopEnv) (N : Nat) (i j : Nat)
    (hij : i ≤ j)
    (hi : (growthLoop env N initialGrowthState).phaseTrace.get? i
      ≠ some GrowthPhase.seeding) :
    (growthLoop env N initialGrowthState).phaseTrace.get? j
      ≠ some GrowthPhase.seeding := by
  have hinv : loopInv initialGrowthState := by
    refine ⟨rfl, by simp [initialGrowthState], by simp [initialGrowthState], ?_, ?_⟩
    · intro hex
      simp [initialGrowthState] at hex
    · intro a b _ _
      simp [initialGrowthState]
  exact (growthLoop_loopInv env N initialGrowthState hinv).2.2.2.2 i j hij hi

/-- Witness for `phase_never_relapses_to_seeding`: in the concrete
late-insight run, the entry after the saturation entry is not seeding. -/
theorem phase_never_relapses_to_seeding_witness :
    (growthLoop lateInsightEnv 8 initialGrowthState).phaseTrace.get? 7
      ≠ some GrowthPhase.seeding :=
  phase_never_relapses_to_seeding lateInsightEnv 8 6 7 (by norm_num)
    (by with_unfolding_all decide)

/-! ### Quality scores and the quality-stagnation condition -/

theorem calculateExpansionQuality_bounds (c : ExpansionCandidate) (dh : Option Rat)
    (hpd : -1 ≤ c.proposed_depth)
    (hdh : ∀ h, dh = some h → 0 ≤ h ∧ h ≤ 1) :
    9/20 ≤ calculateExpansionQuality c dh ∧ calculateExpansionQuality c dh ≤ 1 := by
  have hcast : (-1 : Rat) ≤ (c.proposed_depth : Rat) := by exact_mod_cast hpd
  simp only [calculateExpansionQuality]
  set L0 : Rat := min 1 ((c.content.length : Rat) / 150) with hL0def
  have hL00 : 0 ≤ L0 := le_min (by norm_num) (by positivity)
  have hL01 : L0 ≤ 1 := min_le_left _ _
  have hL : 0 ≤ (if L0 > 8/10 then 1 - (L0 - 8/10) * 2 else L0) := by
    split <;> linarith
  set L : Rat := if L0 > 8/10 then 1 - (L0 - 8/10) * 2 else L0
  have hOB : 0 ≤ (if c.obligations_addressed ≠ [] then (3:Rat)/10 else 0) := by
    split <;> norm_num
  set OB : Rat := if c.obligations_addressed ≠ [] then (3:Rat)/10 else 0
  have hDP1 : -(1/20 : Rat) ≤ min (2/10) ((c.proposed_depth : Rat) * (5/100)) := by
    apply le_min (by norm_num)
    nlinarith
  have hDP2 : min ((2:Rat)/10) ((c.proposed_depth : Rat) * (5/100)) ≤ 2/10 :=
    min_le_left _ _
  set DP : Rat := min ((2:Rat)/10) ((c.proposed_depth : Rat) * (5/100))
  cases hdhc : dh with
  | none =>
    constructor
    · exact le_min (by norm_num) (by linarith)
    · exact min_le_left _ _
  | some h =>
    obtain ⟨hh0, hh1⟩ := hdh h hdhc
    have hdf : 0 ≤ h * (3/10 : Rat) := by nlinarith
    constructor
    · exact le_min (by norm_num) (by linarith)
    · exact min_le_left _ _

set_option maxHeartbeats 1000000 in
theorem validateCandidate_bounds (env : LoopEnv) (c : ExpansionCandidate)
    (p : String × Rat) (h : validateCandidate env c = some p)
    (hguard : ∀ c', env.guard c' = GuardChainResult.pass →
      (c'.proposed_depth - c'.target_ligand.depth_level).natAbs ≤ 2 ∧
      1 ≤ c'.target_ligand.depth_level)
    (hdrift : ∀ f, env.drift = some f → ∀ s, 0 ≤ (f s).1 ∧ (f s).1 ≤ 1) :
    9/20 ≤ p.2 ∧ p.2 ≤ 1 := by
  rw [validateCandidate] at h
  split at h
  · rename_i hpass
    have hd := hguard c hpass
    have hpd : -1 ≤ c.proposed_depth := by omega
    cases hdc : env.drift with
    | none =>
      rw [hdc] at h
      have hp : p = (c.content, calculateExpansionQuality c none) := (Option.some.inj h).symm
      rw [hp]
      exact calculateExpansionQuality_bounds c none hpd (by intro x hx; cases hx)
    | some scan =>
      rw [hdc] at h
      replace h : (if (scan c.content).2 = "Continue" ∨ (scan c.content).2 = "Suggest" then
          some (c.content, calculateExpansionQuality c (some (scan c.content).1))
        else none) = some p := h
      split at h
      · have hp : p = (c.content, calculateExpansionQuality c (some (scan c.content).1)) :=
          (Option.some.inj h).symm
        have hb := calculateExpansionQuality_bounds c (some (scan c.content).1) hpd
          (by intro x hx
              rw [← Option.some.inj hx]
              exact hdrift scan hdc c.content)
        rw [hp]
        exact hb
      · exact absurd h (by simp)
  · exact absurd h (by simp)

theorem validated_foldl_mem (env : LoopEnv) :
    ∀ (l : List ExpansionCandidate) (acc : List (String × Rat)) (p : String × Rat),
      p ∈ l.foldl (fun acc c =>
        match validateCandidate env c with
        | some q => acc ++ [q]
        | none => acc) acc →
      p ∈ acc ∨ ∃ c ∈ l, validateCandidate env c = some p := by
  intro l
  induction l with
  | nil => intro acc p hp; exact Or.inl (by simpa using hp)
  | cons c l ih =>
    intro acc p hp
    simp only [List.foldl_cons] at hp
    cases hv : validateCandidate env c with
    | none =>
      rw [hv] at hp
      rcases ih _ p hp with h | ⟨c', hc1, hc2⟩
      · exact Or.inl h
      · exact Or.inr ⟨c', by simp [hc1], hc2⟩
    | some q =>
      rw [hv] at hp
      rcases ih _ p hp with h | ⟨c', hc1, hc2⟩
      · rcases List.mem_append.mp h with h1 | h1
        · exact Or.inl h1
        · refine Or.inr ⟨c, by simp, ?_⟩
          have hqp : p = q := by simpa using h1
          rw [hv, hqp]
      · exact Or.inr ⟨c', by simp [hc1], hc2⟩

theorem executeIteration_scores (env : LoopEnv) (st : GrowthState) (gate : GateId)
    (res : IterationResult) (h : executeIteration env st gate = some res)
    (hguard : ∀ c', env.guard c' = GuardChainResult.pass →
      (c'.proposed_depth - c'.target_ligand.depth_level).natAbs ≤ 2 ∧
      1 ≤ c'.target_ligand.depth_level)
    (hdrift : ∀ f, env.drift = some f → ∀ s, 0 ≤ (f s).1 ∧ (f s).1 ≤ 1) :
    res.quality_scores ≠ [] ∧ ∀ q ∈ res.quality_scores, 9/20 ≤ q ∧ q ≤ 1 := by
  simp only [executeIteration] at h
  split at h
  · exact absurd h (by simp)
  · split at h
    · exact absurd h (by simp)
    · split at h
      · exact absurd h (by simp)
      · rename_i hvne
        have hres := (Option.some.inj h).symm
        rw [hres]
        constructor
        · simpa using hvne
        · intro q hq
          simp only [List.mem_map] at hq
          obtain ⟨p, hp, hpq⟩ := hq
          rcases validated_foldl_mem env _ [] p hp with hfalse | ⟨c', _, hc2⟩
          · simp at hfalse
          · rw [← hpq]
            exact validateCandidate_bounds env c' p hc2 hguard hdrift
theorem avg_lower_bound (l : List Rat) (hne : l ≠ []) (h : ∀ q ∈ l, 9/20 ≤ q) :
    9/20 ≤ l.sum / (l.length : Rat) := by
  have hlen : 0 < (l.length : Rat) := by
    have : 0 < l.length := List.length_pos.mpr hne
    exact_mod_cast this
  rw [le_div_iff₀ hlen]
  have hsmul : l.length • (9/20 : Rat) ≤ l.sum := List.card_nsmul_le_sum l (9/20) h
  rw [nsmul_eq_mul] at hsmul
  linarith

theorem mem_trim_append {l : List Rat} {x q : Rat}
    (h : q ∈ if 10 < (l ++ [x]).length then List.drop 1 (l ++ [x]) else l ++ [x]) :
    q ∈ l ++ [x] := by
  split at h
  · exact List.mem_of_mem_drop h
  · exact h

theorem processIterationResult_trend_bound (res : IterationResult) (gate : GateId)
    (st : GrowthState)
    (hst : ∀ q ∈ st.quality_trend, 9/20 ≤ q)
    (hsne : res.quality_scores ≠ [])
    (hres : ∀ q ∈ res.quality_scores, 9/20 ≤ q ∧ q ≤ 1) :
    ∀ q ∈ (processIterationResult res gate st).quality_trend, 9/20 ≤ q := by
  have havg : 9/20 ≤ res.quality_scores.sum / (res.quality_scores.length : Rat) :=
    avg_lower_bound res.quality_scores hsne (fun q hq => (hres q hq).1)
  have hmem : ∀ q ∈ st.quality_trend ++
      [res.quality_scores.sum / (res.quality_scores.length : Rat)], 9/20 ≤ q := by
    intro q hq
    rcases List.mem_append.mp hq with h1 | h1
    · exact hst q h1
    · rw [List.mem_singleton.mp h1]
      exact havg
  simp only [processIterationResult]
  rw [if_pos hsne]
  split <;> intro q hq <;> simp only at hq <;> exact hmem q (mem_trim_append hq)

theorem detectStagnation_not_quality (t : Bool) (st : GrowthState)
    (hst : ∀ q ∈ st.quality_trend, 9/20 ≤ q) :
    detectStagnationReason t st ≠ some StopReason.stagnantQuality := by
  unfold detectStagnationReason
  split
  · simp
  · split
    · rename_i hcond
      exfalso
      obtain ⟨hlen, hlt⟩ := hcond
      have hlast : ∀ q ∈ lastN st.quality_trend 5, 9/20 ≤ q :=
        fun q hq => hst q (List.mem_of_mem_drop hq)
      have hlastlen : (lastN st.quality_trend 5).length = 5 := by
        simp only [lastN, List.length_drop]
        omega
      have hsum : (lastN st.quality_trend 5).length • (9/20 : Rat) ≤
          (lastN st.quality_trend 5).sum :=
        List.card_nsmul_le_sum (lastN st.quality_trend 5) (9/20) hlast
      rw [hlastlen, nsmul_eq_mul] at hsum
      rw [div_lt_iff₀ (by norm_num : (0:Rat) < 5)] at hlt
      push_cast at hsum
      linarith
    · split <;> simp

theorem stagnation_some_quality (t : Bool) (st : GrowthState) (r : StopReason)
    (hdet : detectStagnationReason t st = some r)
    (hst : ∀ q ∈ st.quality_trend, 9/20 ≤ q) :
    r ≠ StopReason.stagnantQuality := by
  intro hr
  rw [hr] at hdet
  exact detectStagnation_not_quality t st hst hdet

theorem growthStep_qualityInv (env : LoopEnv) (st : GrowthState)
    (hguard : ∀ c', env.guard c' = GuardChainResult.pass →
      (c'.proposed_depth - c'.target_ligand.depth_level).natAbs ≤ 2 ∧
      1 ≤ c'.target_ligand.depth_level)
    (hdrift : ∀ f, env.drift = some f → ∀ s, 0 ≤ (f s).1 ∧ (f s).1 ≤ 1)
    (htrend : ∀ q ∈ st.quality_trend, 9/20 ≤ q)
    (hstop : st.stopReason ≠ some StopReason.stagnantQuality) :
    (∀ q ∈ (growthStep env st).2.quality_trend, 9/20 ≤ q) ∧
      (growthStep env st).2.stopReason ≠ some StopReason.stagnantQuality := by
  simp only [growthStep]
  split
  · exact ⟨fun q hq => htrend q hq, by simp⟩
  · split
    · exact ⟨fun q hq => htrend q hq, by simp⟩
    · split
      · exact ⟨fun q hq => htrend q hq, by simp⟩
      · rename_i gate hsel
        cases hexec : executeIteration env (updateGrowthPhase st) gate with
        | some res =>
          simp only [hexec]
          have hscores := executeIteration_scores env (updateGrowthPhase st) gate res
            hexec hguard hdrift
          have hb := processIterationResult_trend_bound res gate (updateGrowthPhase st)
            (fun q hq => htrend q hq) hscores.1 hscores.2
          split
          · rename_i r hdet
            exact ⟨fun q hq => hb q hq,
              fun hc => (stagnation_some_quality _ _ r hdet (fun q hq => hb q hq))
                (Option.some.inj hc)⟩
          · exact ⟨fun q hq => hb q hq, fun hc => hstop (by
              simpa only [processIterationResult_stopReason, updateGrowthPhase_stopReason]
                using hc)⟩
        | none =>
          simp only [hexec]
          split
          · rename_i r hdet
            exact ⟨fun q hq => htrend q hq,
              fun hc => (stagnation_some_quality _ _ r hdet (fun q hq => htrend q hq))
                (Option.some.inj hc)⟩
          · exact ⟨fun q hq => htrend q hq, fun hc => hstop hc⟩

theorem growthLoop_qualityInv (env : LoopEnv) (n : Nat) (st : GrowthState)
    (hguard : ∀ c', env.guard c' = GuardChainResult.pass →
      (c'.proposed_depth - c'.target_ligand.depth_level).natAbs ≤ 2 ∧
      1 ≤ c'.target_ligand.depth_level)
    (hdrift : ∀ f, env.drift = some f → ∀ s, 0 ≤ (f s).1 ∧ (f s).1 ≤ 1)
    (htrend : ∀ q ∈ st.quality_trend, 9/20 ≤ q)
    (hstop : st.stopReason ≠ some StopReason.stagnantQuality) :
    (∀ q ∈ (growthLoop env n st).quality_trend, 9/20 ≤ q) ∧
      (growthLoop env n st).stopReason ≠ some StopReason.stagnantQuality := by
  induction n generalizing st with
  | zero => exact ⟨htrend, hstop⟩
  | succ n ih =>
    simp only [growthLoop]
    split
    · exact ⟨htrend, hstop⟩
    · have hstep := growthStep_qualityInv env st hguard hdrift htrend hstop
      split
      · exact ih _ hstep.1 hstep.2
      · exact hstep

theorem guardChainPasses_depth_window (search : String → String → Bool)
    (c : ExpansionCandidate) (g : ConstraintGenome)
    (h : guardChainPasses search c g = GuardChainResult.pass) :
    (c.proposed_depth - c.target_ligand.depth_level).natAbs ≤ 2 := by
  by_contra hgt
  push_neg at hgt
  simp only [guardChainPasses] at h
  split at h
  · rename_i hc
    exact hc h
  · split at h
    · rename_i hc
      exact hc h
    · split at h
      · rename_i hc
        exact hc h
      · split at h
        · rename_i hc
          exact hc h
        · rename_i hc
          rw [not_not, checkSurfaceDepthCongruence, if_pos hgt] at hc
          cases hc

/-- The environment witnessing the quality-floor theorem: no candidates and
an always-failing guard, so both candidate-level hypotheses hold vacuously. -/
def c10Env : LoopEnv :=
  { candidates := fun _ => []
    guard := fun _ => GuardChainResult.fail_entity_scope
    drift := none
    ricCanIterate := none
    timeExceeded := fun _ => false }

/-- C10 (confirmed): any candidate that passes the full guard chain has its
proposed depth within 2 of its target ligand's depth (layer 4); when the
environment's guard enforces that window and the ligand depth invariant
(depth at least 1, the `Ligand` dataclass invariant), and drift healths lie
in [0, 1], every validated candidate's expansion quality lies in
[0.45, 1.0]; consequently every entry of the growth state's quality trend
is at least 0.45, and the rolling-average stagnation condition
(`avg of last 5 < 0.3`) is never the reason a growth pass stops. -/
theorem quality_floor_and_no_quality_stagnation
    (search : String → String → Bool) (g : ConstraintGenome)
    (env : LoopEnv) (N : Nat)
    (hguard : ∀ c, env.guard c = GuardChainResult.pass →
      (c.proposed_depth - c.target_ligand.depth_level).natAbs ≤ 2 ∧
      1 ≤ c.target_ligand.depth_level)
    (hdrift : ∀ f, env.drift = some f → ∀ s, 0 ≤ (f s).1 ∧ (f s).1 ≤ 1) :
    (∀ c, guardChainPasses search c g = GuardChainResult.pass →
      (c.proposed_depth - c.target_ligand.depth_level).natAbs ≤ 2) ∧
    (∀ c p, validateCandidate env c = some p → 9/20 ≤ p.2 ∧ p.2 ≤ 1) ∧
    (∀ q ∈ (growthLoop env N initialGrowthState).quality_trend, 9/20 ≤ q) ∧
    (growthLoop env N initialGrowthState).stopReason ≠
      some StopReason.stagnantQuality := by
  have hloop := growthLoop_qualityInv env N initialGrowthState hguard hdrift
    (by intro q hq; simp [initialGrowthState] at hq)
    (by simp [initialGrowthState])
  exact ⟨fun c hp => guardChainPasses_depth_window search c g hp,
    fun c p hv => validateCandidate_bounds env c p hv hguard hdrift,
    hloop.1, hloop.2⟩

theorem quality_floor_and_no_quality_stagnation_witness :
    (∀ c, guardChainPasses (fun _ _ => false) c witnessGenome = GuardChainResult.pass →
      (c.proposed_depth - c.target_ligand.depth_level).natAbs ≤ 2) ∧
    (∀ c p, validateCandidate c10Env c = some p → 9/20 ≤ p.2 ∧ p.2 ≤ 1) ∧
    (∀ q ∈ (growthLoop c10Env 1 initialGrowthState).quality_trend, 9/20 ≤ q) ∧
    (growthLoop c10Env 1 initialGrowthState).stopReason ≠
      some StopReason.stagnantQuality :=
  quality_floor_and_no_quality_stagnation (fun _ _ => false) witnessGenome c10Env 1
    (fun _ h => absurd h (by simp [c10Env]))
    (fun _ hf => Option.noConfusion hf)
